import Mathlib

/-!
Verification of the pre-commit-library scanners.

This file gives a shallow embedding of the Python scanners in
src/hooks (detect-hardcoded-credentials.py, detect-hardcoded-urls.py,
check-license.py, check_xml.py) and proves properties about them.

Modelling conventions:
 - A file system is a map from paths to optional contents; a path mapped
   to none is a file that cannot be opened or read.
 - The Python stdlib regular-expression engine (the re module) is not
   repository code; it is abstracted as a structure ReEngine whose fields
   stand for the stdlib calls made by the scanners (re.finditer, re.match,
   re.search, and the two group-extracting searches inside
   extract_credential_value).  All repository logic around those calls is
   translated directly from the source.
 - The one regular expression whose exact semantics a claim depends on,
   the base64 shape check inside is_base64_encoded, is implemented
   concretely, as are base64 decoding and strict UTF-8 validation
   (both stdlib calls, modelled on the argument domain that the guarded
   call site can reach).
 - String operations are implemented over the underlying character lists
   with structural recursion so that every definition evaluates by kernel
   reduction on concrete inputs.
-/

namespace PreCommit

/-! ## Character-list helpers (Python string primitives) -/

/-- Characters counted as whitespace by the Python str.strip method
(space, tab, newline, carriage return, vertical tab, form feed). -/
def pySpaceChar (c : Char) : Bool :=
  c == ' ' || c == '\t' || c == '\n' || c == '\r' ||
  c == Char.ofNat 11 || c == Char.ofNat 12

/-- Build a string from a character list. -/
def ofChars (cs : List Char) : String := String.mk cs

/-- Python str.lower, restricted to ASCII as used by the scanners. -/
def lowerStr (s : String) : String := ofChars (s.data.map Char.toLower)

/-- Python str.strip with no argument: drop whitespace from both ends. -/
def pyStrip (s : String) : String :=
  ofChars (((s.data.dropWhile pySpaceChar).reverse.dropWhile pySpaceChar).reverse)

/-- Does the first list occur at the head of the second one? -/
def leadsWith : List Char → List Char → Bool
  | [], _ => true
  | _ :: _, [] => false
  | a :: as, b :: bs => a == b && leadsWith as bs

/-- Does the pattern list occur contiguously anywhere in the subject list? -/
def hasSubChars (pat : List Char) : List Char → Bool
  | [] => pat.isEmpty
  | c :: rest => leadsWith pat (c :: rest) || hasSubChars pat rest

/-- The Python containment test: pat in s. -/
def containsStr (s pat : String) : Bool := hasSubChars pat.data s.data

/-- The Python test s.endswith suf. -/
def strEndsWith (s suf : String) : Bool :=
  leadsWith suf.data.reverse s.data.reverse

/-- Split a character list at every occurrence of the separator,
like the Python str.split method with a one-character separator. -/
def splitOnChar (sep : Char) : List Char → List (List Char)
  | [] => [[]]
  | c :: cs =>
    match splitOnChar sep cs with
    | [] => [[]]
    | g :: gs => if c == sep then [] :: g :: gs else (c :: g) :: gs

/-- Python content.split(sep) for a one-character separator. -/
def pySplit (content : String) (sep : Char) : List String :=
  (splitOnChar sep content.data).map ofChars

/-- Reattach the newline removed by splitting to every group but the last. -/
def attachNl : List (List Char) → List (List Char)
  | [] => []
  | [g] => [g]
  | g :: gs => (g ++ ['\n']) :: attachNl gs

/-- The lines produced by iterating over a Python file object: each line
keeps its trailing newline and a trailing empty fragment is not a line. -/
def pyFileLines (content : String) : List String :=
  let parts := splitOnChar '\n' content.data
  let withNl := attachNl parts
  (match parts.getLast? with
   | some [] => withNl.dropLast
   | _ => withNl).map ofChars

/-- Python enumerate with a starting index. -/
def enumFromN {α : Type} : Nat → List α → List (Nat × α)
  | _, [] => []
  | n, x :: xs => (n, x) :: enumFromN (n + 1) xs

/-- Concatenation of the images of a list-valued function. -/
def flatMapL {α β : Type} (f : α → List β) : List α → List β
  | [] => []
  | a :: as => f a ++ flatMapL f as

/-- Membership test for a string in a list of strings (Python in). -/
def memStr (l : List String) (s : String) : Bool := l.any (fun t => t == s)

/-! ## The abstract regular-expression engine and the file system -/

/-- The stdlib re calls made by the scanners, abstracted as functions.
finditer pat line lists the matched texts of re.finditer(pat, line, re.IGNORECASE);
rmatch pat s tells whether re.match(pat, s) succeeds (flags as at the call site);
rsearch pat s tells whether re.search(pat, s, re.IGNORECASE | re.MULTILINE)
succeeds; groupQuoted t and groupColonEq t are the first groups of the two
re.search calls inside extract_credential_value, when those searches succeed. -/
structure ReEngine where
  finditer : String → String → List String
  rmatch : String → String → Bool
  rsearch : String → String → Bool
  groupQuoted : String → Option String
  groupColonEq : String → Option String

/-- A file system: a path maps to its text content, or to none when the
file does not exist or cannot be opened or read. -/
def FS : Type := String → Option String

/-! ## detect-hardcoded-credentials.py -/

/-- The CREDENTIAL_PATTERNS table (pattern strings are data for the
abstract engine; literal braces are written with hexadecimal escapes). -/
def CREDENTIAL_PATTERNS : List (String × List String) :=
  [("password",
    ["password\\s*[:=]\\s*[\x22\x27][^\x22\x27]\x7b3,\x7d[\x22\x27]",
     "pwd\\s*[:=]\\s*[\x22\x27][^\x22\x27]\x7b3,\x7d[\x22\x27]",
     "passwd\\s*[:=]\\s*[\x22\x27][^\x22\x27]\x7b3,\x7d[\x22\x27]",
     "secret\\s*[:=]\\s*[\x22\x27][^\x22\x27]\x7b8,\x7d[\x22\x27]"]),
   ("api_key",
    ["api[_-]?key\\s*[:=]\\s*[\x22\x27][^\x22\x27]\x7b10,\x7d[\x22\x27]",
     "apikey\\s*[:=]\\s*[\x22\x27][^\x22\x27]\x7b10,\x7d[\x22\x27]",
     "key\\s*[:=]\\s*[\x22\x27][A-Za-z0-9]\x7b20,\x7d[\x22\x27]"]),
   ("token",
    ["token\\s*[:=]\\s*[\x22\x27][^\x22\x27]\x7b10,\x7d[\x22\x27]",
     "auth[_-]?token\\s*[:=]\\s*[\x22\x27][^\x22\x27]\x7b10,\x7d[\x22\x27]",
     "access[_-]?token\\s*[:=]\\s*[\x22\x27][^\x22\x27]\x7b10,\x7d[\x22\x27]",
     "bearer\\s*[:=]\\s*[\x22\x27][^\x22\x27]\x7b10,\x7d[\x22\x27]"]),
   ("database",
    ["db[_-]?password\\s*[:=]\\s*[\x22\x27][^\x22\x27]\x7b3,\x7d[\x22\x27]",
     "database[_-]?password\\s*[:=]\\s*[\x22\x27][^\x22\x27]\x7b3,\x7d[\x22\x27]",
     "connection[_-]?string\\s*[:=]\\s*[\x22\x27][^\x22\x27]*password[^\x22\x27]*[\x22\x27]"]),
   ("private_key",
    ["private[_-]?key\\s*[:=]\\s*[\x22\x27][^\x22\x27]\x7b20,\x7d[\x22\x27]",
     "-----BEGIN\\s+(?:RSA\\s+)?PRIVATE\\s+KEY-----",
     "-----BEGIN\\s+OPENSSH\\s+PRIVATE\\s+KEY-----"]),
   ("aws",
    ["aws[_-]?secret[_-]?access[_-]?key\\s*[:=]\\s*[\x22\x27][^\x22\x27]\x7b20,\x7d[\x22\x27]",
     "aws[_-]?access[_-]?key[_-]?id\\s*[:=]\\s*[\x22\x27]AKIA[0-9A-Z]\x7b16\x7d[\x22\x27]"]),
   ("generic_secret",
    ["secret[_-]?key\\s*[:=]\\s*[\x22\x27][^\x22\x27]\x7b10,\x7d[\x22\x27]",
     "client[_-]?secret\\s*[:=]\\s*[\x22\x27][^\x22\x27]\x7b10,\x7d[\x22\x27]",
     "app[_-]?secret\\s*[:=]\\s*[\x22\x27][^\x22\x27]\x7b10,\x7d[\x22\x27]"])]

/-- The SAFE_VALUES set. -/
def SAFE_VALUES : List String :=
  ["password", "secret", "key", "token", "your_password_here", "change_me",
   "example", "sample", "test", "demo", "placeholder", "dummy", "fake",
   "***", "...", "xxx", "yyy", "zzz", "your_api_key_here", "your_secret_here",
   "insert_your_key_here", "replace_with_your_key", "your_token_here",
   "12345", "123456", "qwerty", "admin", "root", "user"]

/-- The SKIP_EXTENSIONS set shared by the credential and URL scanners. -/
def SKIP_EXTENSIONS : List String :=
  [".png", ".jpg", ".jpeg", ".gif", ".ico", ".svg", ".pdf", ".zip", ".tar", ".gz"]

/-- The SAFE_CONTEXT_PATTERNS table. -/
def SAFE_CONTEXT_PATTERNS : List String :=
  ["^\\s*#", "^\\s*//", "^\\s*/\\*", "^\\s*\\*", "^\\s*<!--",
   "test.*", ".*test.*", "example.*", ".*example.*",
   "sample.*", ".*sample.*", "mock.*", ".*mock.*",
   "placeholder.*", ".*placeholder.*"]

/-- The path fragments that mark a test file in is_safe_context. -/
def TEST_PATH_INDICATORS : List String :=
  ["test", "spec", "mock", "example", "sample", "demo"]

/-- is_safe_context from detect-hardcoded-credentials.py: the file path
contains a test indicator, or the lowercased line matches one of the
SAFE_CONTEXT_PATTERNS. -/
def is_safe_context (E : ReEngine) (line filePath : String) : Bool :=
  TEST_PATH_INDICATORS.any (fun t => containsStr (lowerStr filePath) t) ||
  SAFE_CONTEXT_PATTERNS.any (fun p => E.rmatch p (lowerStr line))

/-- A quote character, as stripped by value.strip in is_safe_value. -/
def quoteChar (c : Char) : Bool := c == '"' || c == Char.ofNat 39

/-- The Python call value.strip on the two quote characters. -/
def stripQuotes (s : String) : String :=
  ofChars (((s.data.dropWhile quoteChar).reverse.dropWhile quoteChar).reverse)

/-- The placeholder indicator fragments inside is_safe_value. -/
def PLACEHOLDER_INDICATORS : List String :=
  ["your_", "insert_", "replace_", "change_", "enter_", "add_", "put_"]

/-- Does a nonempty character list consist of one repeated character?
This is the Python test len(set(x)) == 1. -/
def allSameChar : List Char → Bool
  | [] => false
  | c :: rest => rest.all (fun d => d == c)

/-- is_safe_value from detect-hardcoded-credentials.py. -/
def is_safe_value (value : String) : Bool :=
  let clean := lowerStr (stripQuotes value)
  if memStr SAFE_VALUES clean then true
  else if clean.length < 4 then true
  else if allSameChar clean.data then true
  else if PLACEHOLDER_INDICATORS.any (fun ind => containsStr clean ind) then true
  else false

/-- extract_credential_value from detect-hardcoded-credentials.py:
first group of the quoted-string search, else first group of the
value-after-separator search, else the whole match text. -/
def extract_credential_value (E : ReEngine) (matchText : String) : String :=
  match E.groupQuoted matchText with
  | some v => v
  | none =>
    match E.groupColonEq matchText with
    | some v => v
    | none => matchText

/-! ### is_base64_encoded, implemented concretely -/

/-- A character of the base64 alphabet. -/
def isB64Char (c : Char) : Bool := c.isAlpha || c.isDigit || c == '+' || c == '/'

/-- The anchored shape check of is_base64_encoded: a run of base64
alphabet characters followed by at most two padding characters. -/
def b64RegexMatch (s : String) : Bool :=
  let rest := s.data.dropWhile isB64Char
  decide (rest.length ≤ 2) && rest.all (fun c => c == '=')

/-- The 6-bit value of a base64 alphabet character. -/
def b64CharVal (c : Char) : Nat :=
  if c.isUpper then c.toNat - 65
  else if c.isLower then c.toNat - 97 + 26
  else if c.isDigit then c.toNat - 48 + 52
  else if c == '+' then 62
  else if c == '/' then 63
  else 0

/-- Decode a list of 6-bit values into bytes; a trailing group of two or
three values stands for a final quantum with one or two padding characters. -/
def b64DecodeVals : List Nat → List Nat
  | a :: b :: c :: d :: rest =>
    (a * 4 + b / 16) :: ((b % 16) * 16 + c / 4) :: ((c % 4) * 64 + d) :: b64DecodeVals rest
  | [a, b, c] => [a * 4 + b / 16, (b % 16) * 16 + c / 4]
  | [a, b] => [a * 4 + b / 16]
  | _ => []

/-- The stdlib call base64.b64decode, modelled on the domain reachable from
the guarded call site in is_base64_encoded: a string of length divisible by
four that fits the anchored shape decodes to its bytes, anything else is a
decoding error (none). -/
def b64decodePy (s : String) : Option (List Nat) :=
  if (s.length % 4 == 0) && b64RegexMatch s then
    some (b64DecodeVals ((s.data.takeWhile isB64Char).map b64CharVal))
  else none

/-- A UTF-8 continuation byte. -/
def utf8Cont (b : Nat) : Bool := decide (128 ≤ b) && decide (b ≤ 191)

/-- Strict UTF-8 validity of a byte list, as checked by the stdlib
bytes.decode call: rejects overlong forms, surrogates and values above
the Unicode range. -/
def utf8Valid : List Nat → Bool
  | [] => true
  | b :: bs =>
    if b < 128 then utf8Valid bs
    else if 194 ≤ b ∧ b ≤ 223 then
      match bs with
      | c :: bs2 => utf8Cont c && utf8Valid bs2
      | [] => false
    else if b = 224 then
      match bs with
      | c :: d :: bs3 => (decide (160 ≤ c) && decide (c ≤ 191)) && utf8Cont d && utf8Valid bs3
      | _ => false
    else if 225 ≤ b ∧ b ≤ 236 then
      match bs with
      | c :: d :: bs3 => utf8Cont c && utf8Cont d && utf8Valid bs3
      | _ => false
    else if b = 237 then
      match bs with
      | c :: d :: bs3 => (decide (128 ≤ c) && decide (c ≤ 159)) && utf8Cont d && utf8Valid bs3
      | _ => false
    else if 238 ≤ b ∧ b ≤ 239 then
      match bs with
      | c :: d :: bs3 => utf8Cont c && utf8Cont d && utf8Valid bs3
      | _ => false
    else if b = 240 then
      match bs with
      | c :: d :: e :: bs4 =>
        (decide (144 ≤ c) && decide (c ≤ 191)) && utf8Cont d && utf8Cont e && utf8Valid bs4
      | _ => false
    else if 241 ≤ b ∧ b ≤ 243 then
      match bs with
      | c :: d :: e :: bs4 => utf8Cont c && utf8Cont d && utf8Cont e && utf8Valid bs4
      | _ => false
    else if b = 244 then
      match bs with
      | c :: d :: e :: bs4 =>
        (decide (128 ≤ c) && decide (c ≤ 143)) && utf8Cont d && utf8Cont e && utf8Valid bs4
      | _ => false
    else false

/-- is_base64_encoded from detect-hardcoded-credentials.py: under the
length and shape guard, decode; on a decoding error or non-UTF-8 bytes the
except and inner except arms yield False; otherwise flag only strings
longer than twenty characters. -/
def is_base64_encoded (text : String) : Bool :=
  if (text.length % 4 == 0) && b64RegexMatch text then
    match b64decodePy text with
    | some decoded => if utf8Valid decoded then decide (text.length > 20) else false
    | none => false
  else false

/-! ### The credential scan -/

/-- One finding of find_hardcoded_credentials: line number, stripped line
content, credential type and extracted value. -/
structure CredFinding where
  lineNum : Nat
  lineContent : String
  credType : String
  value : String
deriving DecidableEq, Repr

/-- The body of the innermost loop of find_hardcoded_credentials: from one
matched text, the reported finding, if any.  A safe value is skipped; in a
safe context only a value longer than thirty characters or one detected as
base64 is reported; otherwise the match is always reported. -/
def credHit (E : ReEngine) (filePath : String) (lineNum : Nat)
    (line credType matchText : String) : Option CredFinding :=
  if is_safe_value (extract_credential_value E matchText) then none
  else if is_safe_context E line filePath then
    if decide ((extract_credential_value E matchText).length > 30) ||
        is_base64_encoded (extract_credential_value E matchText) then
      some ⟨lineNum, pyStrip line, credType, extract_credential_value E matchText⟩
    else none
  else some ⟨lineNum, pyStrip line, credType, extract_credential_value E matchText⟩

/-- The per-line part of find_hardcoded_credentials: skip blank lines, then
run every pattern of every credential type over the line. -/
def scanCredLine (E : ReEngine) (filePath : String) (lineNum : Nat) (line : String) :
    List CredFinding :=
  if (pyStrip line).data.isEmpty then []
  else
    flatMapL (fun ctp =>
      flatMapL (fun pat =>
        (E.finditer pat line).filterMap (credHit E filePath lineNum line ctp.1))
        ctp.2)
      CREDENTIAL_PATTERNS

/-- find_hardcoded_credentials: skip binary extensions; an unreadable file
is caught, reported on standard error and contributes no findings; a
readable file is split at newlines and scanned line by line.  The second
component is the list of error messages printed to standard error. -/
def find_hardcoded_credentials (E : ReEngine) (fs : FS) (filePath : String) :
    List CredFinding × List String :=
  if SKIP_EXTENSIONS.any (fun ext => strEndsWith filePath ext) then ([], [])
  else
    match fs filePath with
    | none => ([], ["Error reading " ++ filePath])
    | some content =>
      (flatMapL (fun nl => scanCredLine E filePath nl.1 nl.2)
        (enumFromN 1 (pySplit content '\n')), [])

/-- The exit code of main in detect-hardcoded-credentials.py: starts at
zero and is set to one by every file with a nonempty finding list. -/
def mainCredsExit (E : ReEngine) (fs : FS) (files : List String) : Nat :=
  files.foldl
    (fun ec p => if (find_hardcoded_credentials E fs p).1.isEmpty then ec else 1) 0

/-! ## detect-hardcoded-urls.py -/

/-- The URL_PATTERNS table. -/
def URL_PATTERNS : List String :=
  ["https?://[^\\s\x27\x22>\\]]+",
   "ftp://[^\\s\x27\x22>\\]]+",
   "(?:jdbc|mongodb|mysql|postgresql)://[^\\s\x27\x22>\\]]+",
   "(?:api\\.|www\\.)[a-zA-Z0-9.-]+\\.[a-zA-Z]\x7b2,\x7d(?:/[^\\s\x27\x22>\\]]*)?"]

/-- The SAFE_URL_PATTERNS table. -/
def SAFE_URL_PATTERNS : List String :=
  ["https?://localhost",
   "https?://127\\.0\\.0\\.1",
   "https?://0\\.0\\.0\\.0",
   "https?://example\\.com",
   "https?://example\\.org",
   "https?://example\\.net",
   "https?://.*\\.example\\.com",
   "https?://.*\\.test",
   "https?://.*\\.local",
   "https?://.*\\.localhost",
   "https?://github\\.com/.*",
   "https?://docs\\..*",
   "https?://www\\.w3\\.org/.*",
   "https?://tools\\.ietf\\.org/.*",
   "https?://schemas\\..*",
   "https?://registry\\.npmjs\\.org/.*",
   "https?://pypi\\.org/.*",
   "https?://central\\.maven\\.org/.*"]

/-- The COMMENT_PATTERNS table. -/
def COMMENT_PATTERNS : List String :=
  ["^\\s*#", "^\\s*//", "^\\s*/\\*", "^\\s*\\*", "^\\s*<!--"]

/-- The keywords that keep a URL suspicious even inside a comment. -/
def URL_SUSPICIOUS_KEYWORDS : List String :=
  ["api", "prod", "staging", "internal", "admin"]

/-- is_in_comment from detect-hardcoded-urls.py. -/
def is_in_comment (E : ReEngine) (line : String) : Bool :=
  COMMENT_PATTERNS.any (fun p => E.rmatch p line)

/-- is_safe_url from detect-hardcoded-urls.py. -/
def is_safe_url (E : ReEngine) (url : String) : Bool :=
  SAFE_URL_PATTERNS.any (fun p => E.rmatch p url)

/-- One finding of find_hardcoded_urls. -/
structure UrlFinding where
  lineNum : Nat
  lineContent : String
  url : String
deriving DecidableEq, Repr

/-- The reporting decision of find_hardcoded_urls for one matched URL. -/
def urlHit (E : ReEngine) (lineNum : Nat) (line url : String) : Option UrlFinding :=
  if is_safe_url E url then none
  else if is_in_comment E line then
    if URL_SUSPICIOUS_KEYWORDS.any (fun kw => containsStr (lowerStr url) kw) then
      some ⟨lineNum, pyStrip line, url⟩
    else none
  else some ⟨lineNum, pyStrip line, url⟩

/-- The per-line part of find_hardcoded_urls. -/
def scanUrlLine (E : ReEngine) (lineNum : Nat) (line : String) : List UrlFinding :=
  if (pyStrip line).data.isEmpty then []
  else
    flatMapL (fun pat => (E.finditer pat line).filterMap (urlHit E lineNum line))
      URL_PATTERNS

/-- find_hardcoded_urls: analogous to the credential scanner, iterating
over the file lines with their numbers.  The second component is the list
of error messages printed to standard error. -/
def find_hardcoded_urls (E : ReEngine) (fs : FS) (filePath : String) :
    List UrlFinding × List String :=
  if SKIP_EXTENSIONS.any (fun ext => strEndsWith filePath ext) then ([], [])
  else
    match fs filePath with
    | none => ([], ["Error reading " ++ filePath])
    | some content =>
      (flatMapL (fun nl => scanUrlLine E nl.1 nl.2)
        (enumFromN 1 (pyFileLines content)), [])

/-- The exit code of main in detect-hardcoded-urls.py. -/
def mainUrlsExit (E : ReEngine) (fs : FS) (files : List String) : Nat :=
  files.foldl
    (fun ec p => if (find_hardcoded_urls E fs p).1.isEmpty then ec else 1) 0

/-- The per-file reports of a run of the URL scanner over a file list. -/
def runUrls (E : ReEngine) (fs : FS) (files : List String) :
    List (String × List UrlFinding) :=
  files.map (fun p => (p, (find_hardcoded_urls E fs p).1))

/-! ## check-license.py -/

/-- The LICENSE_PATTERNS table. -/
def LICENSE_PATTERNS : List (String × List String) :=
  [("apache",
    ["Licensed under the Apache License",
     "Apache License.*Version 2\\.0"]),
   ("mit",
    ["MIT License",
     "Permission is hereby granted, free of charge"]),
   ("gpl",
    ["GNU General Public License",
     "This program is free software"]),
   ("bsd",
    ["BSD License",
     "Redistribution and use in source and binary forms"]),
   ("copyright",
    ["Copyright.*\\d\x7b4\x7d",
     "\\(c\\).*\\d\x7b4\x7d",
     "©.*\\d\x7b4\x7d"])]

/-- The HEADER_REQUIRED_EXTENSIONS set. -/
def HEADER_REQUIRED_EXTENSIONS : List String :=
  [".py", ".java", ".js", ".ts", ".cpp", ".c", ".h", ".hpp",
   ".cs", ".go", ".rs", ".php", ".rb", ".scala", ".swift"]

/-- The SKIP_EXTENSIONS set of check-license.py. -/
def LICENSE_SKIP_EXTENSIONS : List String :=
  [".md", ".txt", ".json", ".xml", ".yaml", ".yml", ".toml",
   ".png", ".jpg", ".jpeg", ".gif", ".ico", ".svg", ".pdf"]

/-- The SKIP_DIRECTORIES set. -/
def SKIP_DIRECTORIES : List String :=
  ["node_modules", ".git", "vendor", "build", "dist", "target",
   ".pytest_cache", "__pycache__", ".venv", "venv"]

/-- The parts of a path, as iterated by should_check_file. -/
def pathParts (p : String) : List String := pySplit p '/'

/-- The final component of a path. -/
def pathName (p : String) : String := (pathParts p).getLastD ""

/-- The pathlib suffix of a path: with i the index of the last dot of the
name, the slice from i when 0 < i < length - 1, and empty otherwise (bare
names, hidden files such as .env, names with a trailing dot). -/
def pathSuffix (p : String) : String :=
  let name := (pathName p).data
  let afterRev := name.reverse.takeWhile (fun c => !(c == '.'))
  if afterRev.length == name.length then ""
  else
    let i := name.length - afterRev.length - 1
    if decide (0 < i) && decide (0 < afterRev.length) then "." ++ ofChars afterRev.reverse
    else ""

/-- should_check_file from check-license.py. -/
def should_check_file (p : String) : Bool :=
  if (pathParts p).any (fun part => memStr SKIP_DIRECTORIES part) then false
  else if memStr LICENSE_SKIP_EXTENSIONS (pathSuffix p) then false
  else memStr HEADER_REQUIRED_EXTENSIONS (pathSuffix p)

/-- read_file_head from check-license.py: the first twenty lines of the
file (the default argument used by the only caller), the empty string when
the file cannot be read. -/
def read_file_head (fs : FS) (p : String) : String :=
  match fs p with
  | none => ""
  | some content => String.join ((pyFileLines content).take 20)

/-- has_license_header from check-license.py: the license types whose
pattern list has a member found in the head content, and whether that
collection is nonempty. -/
def has_license_header (E : ReEngine) (fs : FS) (p : String) : Bool × List String :=
  let head := read_file_head fs p
  let found := LICENSE_PATTERNS.filterMap
    (fun lp => if lp.2.any (fun pat => E.rsearch pat head) then some lp.1 else none)
  (decide (found.length > 0), found)

/-- One line of report printed by main in check-license.py for a checked
file: a license found (and matching the requested type when one is set), a
license of the wrong type, a missing header with the require flag set, or
a missing-header warning without it. -/
inductive LicReport where
  | okRep (path : String) (found : List String)
  | wrongType (path : String) (found : List String)
  | missingErr (path : String)
  | missingWarn (path : String)
deriving DecidableEq, Repr

/-- The command-line arguments of check-license.py. -/
structure LicArgs where
  requireLicense : Bool
  licenseType : Option String

/-- The body of the file loop of main in check-license.py, acting on the
pair of the exit code and the reports printed so far. -/
def licStep (E : ReEngine) (fs : FS) (args : LicArgs)
    (st : Nat × List LicReport) (p : String) : Nat × List LicReport :=
  if !should_check_file p then st
  else
    let hf := has_license_header E fs p
    if hf.1 then
      match args.licenseType with
      | some lt =>
        if !(memStr hf.2 lt) then
          (if args.requireLicense then 1 else st.1, st.2 ++ [LicReport.wrongType p hf.2])
        else (st.1, st.2 ++ [LicReport.okRep p hf.2])
      | none => (st.1, st.2 ++ [LicReport.okRep p hf.2])
    else
      if args.requireLicense then (1, st.2 ++ [LicReport.missingErr p])
      else (st.1, st.2 ++ [LicReport.missingWarn p])

/-- The exit code and per-file reports of main in check-license.py. -/
def mainLicense (E : ReEngine) (fs : FS) (args : LicArgs) (files : List String) :
    Nat × List LicReport :=
  files.foldl (licStep E fs args) (0, [])

/-- Is a report line a finding (anything other than a found license)? -/
def isFindingReport : LicReport → Bool
  | LicReport.okRep _ _ => false
  | _ => true

/-- The condition under which a file makes main of check-license.py set the
exit code when the require flag is on: the file is checked and either lacks
a license header or lacks the requested license type. -/
def licFileFails (E : ReEngine) (fs : FS) (args : LicArgs) (p : String) : Bool :=
  should_check_file p &&
    (let hf := has_license_header E fs p
     if hf.1 then
       match args.licenseType with
       | some lt => !(memStr hf.2 lt)
       | none => false
     else true)

/-! ## check_xml.py -/

/-- The Python exceptions relevant to check_xml.py. -/
inductive PyExc where
  | parseError (msg : String)
  | expatError (msg : String)
  | fileNotFound (msg : String)
  | otherError (msg : String)
deriving DecidableEq, Repr

/-- The message carried by an exception. -/
def pyExcMsg : PyExc → String
  | PyExc.parseError m => m
  | PyExc.expatError m => m
  | PyExc.fileNotFound m => m
  | PyExc.otherError m => m

/-- A token of the simplified tag-per-line XML fragment used to model the
stdlib parser: an opening tag, a closing tag, or an unparseable line. -/
inductive XTok where
  | openTag (t : String)
  | closeTag (t : String)
  | badTok
deriving DecidableEq, Repr

/-- A well-formed tag name: nonempty, without angle brackets or slashes. -/
def tagNameOk (cs : List Char) : Bool :=
  !cs.isEmpty && cs.all (fun c => !(c == '<' || c == '>' || c == '/'))

/-- Parse one line of the simplified XML fragment. -/
def parseXmlLine (l : String) : XTok :=
  match l.data with
  | '<' :: '/' :: rest =>
    match rest.reverse with
    | '>' :: revName =>
      if tagNameOk revName.reverse then XTok.closeTag (ofChars revName.reverse)
      else XTok.badTok
    | _ => XTok.badTok
  | '<' :: rest =>
    match rest.reverse with
    | '>' :: revName =>
      if tagNameOk revName.reverse then XTok.openTag (ofChars revName.reverse)
      else XTok.badTok
    | _ => XTok.badTok
  | _ => XTok.badTok

/-- The tag-balance automaton of the simplified parser: a stack of open
tags and a flag recording that the root element has been closed. -/
def xmlGo : List XTok → List String → Bool → Bool
  | [], stack, rootClosed => stack.isEmpty && rootClosed
  | XTok.openTag n :: ts, stack, rootClosed =>
    if rootClosed then false else xmlGo ts (n :: stack) rootClosed
  | XTok.closeTag n :: ts, stack, rootClosed =>
    match stack with
    | [] => false
    | m :: ms => if m == n then xmlGo ts ms (ms.isEmpty || rootClosed) else false
  | XTok.badTok :: _, _, _ => false

/-- Well-formedness of a document given as lines: blank lines are ignored,
every other line must be a tag, tags must balance, and exactly one root
element must be opened and closed.  This models the stdlib ET.parse call
on the simplified tag-per-line fragment. -/
def xmlWellFormed (lines : List String) : Bool :=
  xmlGo ((lines.filter (fun l => !l.data.isEmpty)).map parseXmlLine) [] false

/-- The stdlib call ET.parse: a missing or unreadable file raises
FileNotFoundError, an ill-formed document raises ParseError. -/
def etParse (fs : FS) (p : String) : Except PyExc Unit :=
  match fs p with
  | none => Except.error (PyExc.fileNotFound p)
  | some content =>
    if xmlWellFormed (pySplit content '\n') then Except.ok ()
    else Except.error (PyExc.parseError p)

/-- validate_xml_file from check_xml.py.  The Except return type records
whether the function itself can raise; the three handler arms, ending with
the catch-all on Exception, turn every outcome of the parse into an
ordinary return value. -/
def validate_xml_file (fs : FS) (p : String) : Except PyExc (Bool × Option String) :=
  match etParse fs p with
  | Except.ok _ => Except.ok (true, none)
  | Except.error (PyExc.parseError m) => Except.ok (false, some ("XML Parse Error: " ++ m))
  | Except.error (PyExc.expatError m) => Except.ok (false, some ("XML Syntax Error: " ++ m))
  | Except.error e => Except.ok (false, some ("Unexpected error: " ++ pyExcMsg e))

/-- One line of report printed by main in check_xml.py: a valid file, an
invalid file with its message, or the report of the FileNotFoundError
handler around the validate_xml_file call. -/
inductive XReport where
  | validRep (path : String)
  | invalidRep (path : String) (msg : String)
  | notFoundHandler (path : String)
deriving DecidableEq, Repr

/-- The body of the file loop of main in check_xml.py: an exception raised
by validate_xml_file would be caught by the FileNotFoundError handler or
propagate out of main. -/
def xmlStep (fs : FS) (st : Nat × List XReport) (p : String) :
    Except PyExc (Nat × List XReport) :=
  match validate_xml_file fs p with
  | Except.ok (true, _) => Except.ok (st.1, st.2 ++ [XReport.validRep p])
  | Except.ok (false, m) => Except.ok (1, st.2 ++ [XReport.invalidRep p (m.getD "")])
  | Except.error (PyExc.fileNotFound _) => Except.ok (1, st.2 ++ [XReport.notFoundHandler p])
  | Except.error e => Except.error e

/-- main of check_xml.py over a list of files. -/
def mainXml (fs : FS) (files : List String) : Except PyExc (Nat × List XReport) :=
  files.foldlM (xmlStep fs) (0, [])

/-- Is a report the output of the FileNotFoundError handler? -/
def isNotFoundReport : XReport → Bool
  | XReport.notFoundHandler _ => true
  | _ => false

/-- The pure residue of xmlStep, defined for the proof that the step never
raises. -/
def xmlStepPure (fs : FS) (st : Nat × List XReport) (p : String) : Nat × List XReport :=
  match validate_xml_file fs p with
  | Except.ok (true, _) => (st.1, st.2 ++ [XReport.validRep p])
  | Except.ok (false, m) => (1, st.2 ++ [XReport.invalidRep p (m.getD "")])
  | Except.error _ => st

/-- Does validate_xml_file report a file as invalid? -/
def badXml (fs : FS) (p : String) : Bool :=
  match validate_xml_file fs p with
  | Except.ok (false, _) => true
  | _ => false

/-- The single report main in check_xml.py prints for one file: the
verdict of validate_xml_file (the error arm is unreachable, since
validate_xml_file never raises). -/
def xmlFileReport (fs : FS) (p : String) : XReport :=
  match validate_xml_file fs p with
  | Except.ok (true, _) => XReport.validRep p
  | Except.ok (false, m) => XReport.invalidRep p (m.getD "")
  | Except.error _ => XReport.notFoundHandler p

/-- Is a report of the XML checker a finding (an invalid file or the
handler message), rather than a valid-file confirmation? -/
def isXmlFinding : XReport → Bool
  | XReport.validRep _ => false
  | _ => true

/-- The reports main in check-license.py prints for one file: none when
the file is not checked, otherwise exactly one. -/
def licFileReports (E : ReEngine) (fs : FS) (args : LicArgs) (p : String) :
    List LicReport :=
  if !should_check_file p then []
  else
    let hf := has_license_header E fs p
    if hf.1 then
      match args.licenseType with
      | some lt =>
        if !(memStr hf.2 lt) then [LicReport.wrongType p hf.2]
        else [LicReport.okRep p hf.2]
      | none => [LicReport.okRep p hf.2]
    else
      if args.requireLicense then [LicReport.missingErr p]
      else [LicReport.missingWarn p]

/-! ## Shared machinery of the three severity-aware scanners -/

/-- One named group of a pattern table, with its description and
severity, as in the VERBOSE_PATTERNS, ANSIBLE_SECURITY_PATTERNS and
DOTNET_SECURITY_PATTERNS dictionaries. -/
structure PatternGroup where
  name : String
  patterns : List String
  description : String
  severity : String

/-- One reported issue of the verbose-flag, Ansible or .NET scanner:
line number, stripped line content, pattern-group name and description. -/
structure ScanIssue where
  lineNum : Nat
  lineContent : String
  patternName : String
  description : String
deriving DecidableEq, Repr

/-- The severity_levels dictionary lookup with default one. -/
def sevLevel (s : String) : Nat :=
  if s == "low" then 1 else if s == "medium" then 2 else if s == "high" then 3 else 1

/-- Dictionary lookup of a pattern group by name. -/
def lookupGroup (table : List PatternGroup) (name : String) : Option PatternGroup :=
  table.find? (fun g => g.name == name)

/-- The severity filter of the three mains: applied only when a severity
argument is given; issues with a name outside the table are kept. -/
def filterBySeverity (table : List PatternGroup) (sev : Option String)
    (issues : List ScanIssue) : List ScanIssue :=
  match sev with
  | none => issues
  | some s =>
    issues.filter (fun i =>
      match lookupGroup table i.patternName with
      | some g => decide (sevLevel g.severity ≥ sevLevel s)
      | none => true)

/-- The severity and json command-line arguments shared by the Ansible
and .NET scanners. -/
structure SevArgs where
  severity : Option String
  json : Bool

/-! ## detect-verbose-flags.py -/

/-- The VERBOSE_PATTERNS table. -/
def VERBOSE_PATTERNS : List PatternGroup :=
  [{ name := "debug_flags",
     patterns :=
       ["logging\\.basicConfig\\([^)]*level\\s*=\\s*logging\\.DEBUG",
        "logger\\.setLevel\\(logging\\.DEBUG\\)",
        "debug\\s*=\\s*True",
        "verbose\\s*=\\s*True",
        "DJANGO_DEBUG\\s*=\\s*True",
        "DEBUG\\s*=\\s*True",
        "console\\.debug\\(",
        "console\\.trace\\(",
        "logger\\.debug\\(",
        "debug:\\s*true",
        "verbose:\\s*true",
        "NODE_ENV.*development",
        "process\\.env\\.DEBUG",
        "Logger\\.getLogger\\([^)]*\\)\\.setLevel\\(Level\\.DEBUG\\)",
        "Logger\\.getLogger\\([^)]*\\)\\.setLevel\\(Level\\.ALL\\)",
        "System\\.setProperty\\([\x22\x27]java\\.util\\.logging\\.level[\x22\x27],\\s*[\x22\x27]DEBUG[\x22\x27]",
        "@EnableDebugLogs",
        "\\.debug\\(.*\\)",
        "LogLevel\\.Debug",
        "LogLevel\\.Trace",
        "\\.AddDebug\\(\\)",
        "\\.SetMinimumLevel\\(LogLevel\\.Debug\\)",
        "#if\\s+DEBUG",
        "Debugger\\.IsAttached",
        "Environment\\.GetEnvironmentVariable\\([\x22\x27]ASPNETCORE_ENVIRONMENT[\x22\x27].*[\x22\x27]Development[\x22\x27]",
        "log\\.SetLevel\\(logrus\\.DebugLevel\\)",
        "log\\.SetLevel\\(logrus\\.TraceLevel\\)",
        "gin\\.SetMode\\(gin\\.DebugMode\\)",
        "debug:\\s*true",
        "verbose:\\s*true",
        "error_reporting\\(E_ALL\\)",
        "ini_set\\([\x22\x27]display_errors[\x22\x27],\\s*[\x22\x27]1[\x22\x27]",
        "ini_set\\([\x22\x27]display_startup_errors[\x22\x27],\\s*[\x22\x27]1[\x22\x27]",
        "WP_DEBUG.*true",
        "define\\([\x22\x27]WP_DEBUG[\x22\x27],\\s*true\\)",
        "Rails\\.logger\\.level\\s*=\\s*Logger::DEBUG",
        "config\\.log_level\\s*=\\s*:debug",
        "logger\\.level\\s*=\\s*Logger::DEBUG",
        "set\\s+-x",
        "bash\\s+-x",
        "sh\\s+-x",
        "set\\s+-v",
        "PS4="],
     description := "Debug/verbose logging enabled - should be disabled in production",
     severity := "medium" },
   { name := "verbose_cli_flags",
     patterns :=
       ["\\s-v\\s",
        "\\s--verbose\\s",
        "\\s-vv\\s",
        "\\s-vvv\\s",
        "\\s--debug\\s",
        "\\s-d\\s",
        "\\s--trace\\s",
        "VERBOSE=1",
        "DEBUG=1",
        "TRACE=1",
        "docker.*--log-level\\s*debug",
        "docker.*--debug",
        "dockerfile.*--progress=plain",
        "kubectl.*--v=[5-9]",
        "kubectl.*--v=1[0-9]",
        "helm.*--debug",
        "TF_LOG=DEBUG",
        "TF_LOG=TRACE",
        "terraform.*-verbose",
        "ansible.*-vvv",
        "ansible.*-vv",
        "ansible.*--verbose",
        "ANSIBLE_DEBUG=1",
        "git.*--verbose",
        "GIT_TRACE=1",
        "GIT_CURL_VERBOSE=1"],
     description := "Verbose command line flags detected - may expose sensitive information",
     severity := "low" },
   { name := "configuration_debug",
     patterns :=
       ["log_level:\\s*debug",
        "log_level:\\s*trace",
        "verbosity:\\s*[3-9]",
        "debug_mode:\\s*true",
        "enable_debug:\\s*true",
        "development_mode:\\s*true",
        "ENV\\s+DEBUG\\s*=\\s*true",
        "ENV\\s+VERBOSE\\s*=\\s*true",
        "environment:\\s*development",
        "SHOW_SQL\\s*=\\s*true",
        "hibernate\\.show_sql\\s*=\\s*true",
        "spring\\.jpa\\.show-sql\\s*=\\s*true",
        "DATABASE_DEBUG\\s*=\\s*true",
        "ErrorDocument\\s+500.*debug",
        "display_errors\\s*=\\s*On",
        "display_startup_errors\\s*=\\s*On"],
     description := "Debug configuration detected - should be disabled in production",
     severity := "medium" },
   { name := "test_debug_remnants",
     patterns :=
       ["console\\.log\\([^)]*[\x22\x27]DEBUG[\x22\x27]",
        "print\\([^)]*[\x22\x27]DEBUG[\x22\x27]",
        "System\\.out\\.println\\([^)]*[\x22\x27]DEBUG[\x22\x27]",
        "fmt\\.Println\\([^)]*[\x22\x27]DEBUG[\x22\x27]",
        "echo\\s+[\x22\x27]DEBUG",
        "logger\\.[^(]*\\([^)]*[\x22\x27]DEBUG[\x22\x27]",
        "\\/\\/\\s*TODO:?\\s*remove.*debug",
        "\\/\\/\\s*FIXME:?\\s*remove.*debug",
        "#\\s*TODO:?\\s*remove.*debug",
        "\\/\\*.*DEBUG.*\\*\\/",
        "<!--.*DEBUG.*-->",
        "console\\.time\\(",
        "console\\.timeEnd\\(",
        "performance\\.now\\(\\)",
        "System\\.currentTimeMillis\\(\\).*print",
        "time\\.time\\(\\).*print"],
     description := "Debug/test code remnants - should be removed before production",
     severity := "low" }]

/-- The SUPPORTED_EXTENSIONS set of detect-verbose-flags.py. -/
def SUPPORTED_EXTENSIONS : List String :=
  [".py", ".js", ".ts", ".jsx", ".tsx", ".java", ".cs", ".vb", ".fs",
   ".go", ".php", ".rb", ".sh", ".bash", ".zsh", ".yml", ".yaml",
   ".json", ".xml", ".config", ".properties", ".env", ".dockerfile",
   ".tf", ".tfvars"]

/-- The DEBUG_CONFIG_FILES set. -/
def DEBUG_CONFIG_FILES : List String :=
  ["docker-compose.yml", "docker-compose.yaml", "dockerfile", "makefile",
   "package.json", "webpack.config.js", "gulpfile.js", "gruntfile.js",
   "ansible.cfg", "playbook.yml", "playbook.yaml", ".env", ".env.local",
   "appsettings.json", "appsettings.development.json", "web.config",
   "application.properties", "application.yml", "logback.xml", "log4j.xml"]

/-- The SAFE_CONTEXTS table of detect-verbose-flags.py. -/
def VERBOSE_SAFE_CONTEXTS : List String :=
  ["test.*", ".*test.*", "spec.*", ".*spec.*", "mock.*", ".*mock.*",
   "example.*", ".*example.*", "sample.*", ".*sample.*", "demo.*",
   "debug.*", ".*debug.*", "dev.*", ".*dev.*", "development.*",
   "local.*", ".*local.*"]

/-- is_safe_context from detect-verbose-flags.py (on the file path only). -/
def is_safe_context_verbose (E : ReEngine) (filePath : String) : Bool :=
  VERBOSE_SAFE_CONTEXTS.any (fun pat => E.rmatch pat (lowerStr filePath))

/-- should_check_file from detect-verbose-flags.py. -/
def should_check_file_verbose (p : String) : Bool :=
  memStr SUPPORTED_EXTENSIONS (lowerStr (pathSuffix p)) ||
  memStr DEBUG_CONFIG_FILES (lowerStr (pathName p))

/-- The per-line part of check_verbose_flags: skip blank or hash-started
lines, then report every matching pattern, skipping low-severity groups
inside a safe context. -/
def scanVerboseLine (E : ReEngine) (inSafe : Bool) (n : Nat) (line : String) :
    List ScanIssue :=
  if (pyStrip line).data.isEmpty || leadsWith ['#'] (pyStrip line).data then []
  else
    flatMapL (fun grp =>
      flatMapL (fun pat =>
        if E.rsearch pat line then
          if inSafe && (grp.severity == "low") then []
          else [⟨n, pyStrip line, grp.name, grp.description⟩]
        else [])
        grp.patterns)
      VERBOSE_PATTERNS

/-- check_verbose_flags from detect-verbose-flags.py.  The second
component is the list of error messages printed to standard error. -/
def check_verbose_flags (E : ReEngine) (fs : FS) (p : String) :
    List ScanIssue × List String :=
  if !should_check_file_verbose p then ([], [])
  else
    match fs p with
    | none => ([], ["Error analyzing " ++ p])
    | some content =>
      (flatMapL (fun nl => scanVerboseLine E (is_safe_context_verbose E p) nl.1 nl.2)
        (enumFromN 1 (pySplit content '\n')), [])

/-- The command-line arguments of detect-verbose-flags.py. -/
structure VerboseArgs where
  severity : Option String
  json : Bool
  excludeSafeContexts : Bool

/-- The issues main of detect-verbose-flags.py reports for one file: none
when the exclusion flag skips it, otherwise the severity-filtered issues. -/
def verboseFileIssues (E : ReEngine) (fs : FS) (args : VerboseArgs) (p : String) :
    List ScanIssue :=
  if args.excludeSafeContexts && is_safe_context_verbose E p then []
  else filterBySeverity VERBOSE_PATTERNS args.severity (check_verbose_flags E fs p).1

/-- The exit code of main in detect-verbose-flags.py. -/
def mainVerboseExit (E : ReEngine) (fs : FS) (args : VerboseArgs)
    (files : List String) : Nat :=
  files.foldl (fun ec p => if (verboseFileIssues E fs args p).isEmpty then ec else 1) 0

/-- The per-file reports of a run of the verbose-flag scanner. -/
def runVerbose (E : ReEngine) (fs : FS) (args : VerboseArgs) (files : List String) :
    List (String × List ScanIssue) :=
  files.map (fun p => (p, verboseFileIssues E fs args p))

/-! ## ansible-security-scan.py -/

/-- The two stdlib-YAML-dependent helpers of ansible-security-scan.py,
abstracted because they act through yaml.safe_load on the untyped parsed
object: isAnsibleYaml models analyze_yaml_content, and structIssues
models the composite of the final yaml.safe_load call and
analyze_yaml_structure (empty on a YAMLError or falsy document). -/
structure YamlEnv where
  isAnsibleYaml : String → Bool
  structIssues : String → List ScanIssue

/-- The ANSIBLE_SECURITY_PATTERNS table. -/
def ANSIBLE_SECURITY_PATTERNS : List PatternGroup :=
  [{ name := "hardcoded_secrets",
     patterns :=
       ["password:\\s*[\x22\x27]?[^\x22\x27\\s]\x7b8,\x7d[\x22\x27]?\\s*$",
        "secret:\\s*[\x22\x27]?[^\x22\x27\\s]\x7b8,\x7d[\x22\x27]?\\s*$",
        "api_key:\\s*[\x22\x27]?[^\x22\x27\\s]\x7b10,\x7d[\x22\x27]?\\s*$",
        "private_key:\\s*[\x22\x27]?-----BEGIN",
        "token:\\s*[\x22\x27]?[^\x22\x27\\s]\x7b10,\x7d[\x22\x27]?\\s*$"],
     description := "Hardcoded secrets detected - use ansible-vault or variables",
     severity := "high" },
   { name := "unencrypted_vars",
     patterns :=
       ["vars:\\s*\\n.*password:",
        "vars:\\s*\\n.*secret:",
        "group_vars.*password",
        "host_vars.*password"],
     description := "Unencrypted sensitive variables - consider ansible-vault",
     severity := "medium" },
   { name := "shell_injection",
     patterns :=
       ["shell:\\s*.*\\\x7b\\\x7b.*\\\x7d\\\x7d.*",
        "command:\\s*.*\\\x7b\\\x7b.*\\\x7d\\\x7d.*",
        "raw:\\s*.*\\\x7b\\\x7b.*\\\x7d\\\x7d.*",
        "shell:.*\\|.*unsafe"],
     description := "Potential shell injection through templating",
     severity := "high" },
   { name := "file_permissions",
     patterns :=
       ["mode:\\s*[\x22\x27]?777[\x22\x27]?",
        "mode:\\s*[\x22\x27]?666[\x22\x27]?",
        "mode:\\s*[\x22\x27]?o\\+w[\x22\x27]?",
        "mode:\\s*[\x22\x27]?a\\+w[\x22\x27]?"],
     description := "Overly permissive file permissions",
     severity := "medium" },
   { name := "http_usage",
     patterns :=
       ["url:\\s*http://(?!localhost|127\\.0\\.0\\.1|example\\.)",
        "src:\\s*http://(?!localhost|127\\.0\\.0\\.1|example\\.)",
        "repo:\\s*http://(?!localhost|127\\.0\\.0\\.1|example\\.)"],
     description := "HTTP usage instead of HTTPS for external resources",
     severity := "medium" },
   { name := "sudo_without_validate",
     patterns :=
       ["become:\\s*yes(?!.*validate)",
        "become_user:\\s*root(?!.*validate)",
        "sudo:.*NOPASSWD:ALL"],
     description := "Sudo usage without validation or with NOPASSWD",
     severity := "medium" },
   { name := "debug_exposure",
     patterns :=
       ["debug:\\s*yes",
        "debug:\\s*true",
        "verbosity:\\s*[3-9]",
        "-vvv"],
     description := "Debug mode enabled - may expose sensitive information",
     severity := "low" },
   { name := "weak_crypto",
     patterns :=
       ["algorithm:\\s*md5",
        "algorithm:\\s*sha1",
        "checksum_algorithm:\\s*md5",
        "checksum_algorithm:\\s*sha1"],
     description := "Weak cryptographic algorithm usage",
     severity := "medium" },
   { name := "unsafe_privileges",
     patterns :=
       ["become_flags:.*-n",
        "become_flags:.*--non-interactive",
        "privilege_escalation:.*unsafe"],
     description := "Unsafe privilege escalation configuration",
     severity := "high" },
   { name := "inventory_exposure",
     patterns :=
       ["ansible_ssh_pass:\\s*[^\x7b]",
        "ansible_become_pass:\\s*[^\x7b]",
        "ansible_password:\\s*[^\x7b]"],
     description := "Passwords in inventory files - use vault or ssh keys",
     severity := "high" },
   { name := "template_injection",
     patterns :=
       ["template:.*\\\x7b\\\x7b.*\\|.*safe.*\\\x7d\\\x7d",
        "template:.*\\\x7b\\\x7b.*\\|.*raw.*\\\x7d\\\x7d",
        "lineinfile:.*\\\x7b\\\x7b.*\\|.*unsafe.*\\\x7d\\\x7d"],
     description := "Unsafe template filters that disable auto-escaping",
     severity := "high" }]

/-- The specific Ansible file names recognized by is_ansible_file. -/
def ANSIBLE_SPECIAL_NAMES : List String :=
  ["ansible.cfg", "hosts", "inventory", "site.yml", "site.yaml"]

/-- The Ansible directory names recognized by is_ansible_file. -/
def ANSIBLE_DIRS : List String :=
  ["group_vars", "host_vars", "roles", "playbooks", "inventories"]

/-- is_ansible_file from ansible-security-scan.py. -/
def is_ansible_file (p : String) : Bool :=
  memStr [".yml", ".yaml"] (lowerStr (pathSuffix p)) ||
  memStr ANSIBLE_SPECIAL_NAMES (lowerStr (pathName p)) ||
  (pathParts p).any (fun part => memStr ANSIBLE_DIRS (lowerStr part))

/-- The file-name fragments marking files that should be vault-encrypted. -/
def SENSITIVE_FILE_FRAGMENTS : List String :=
  ["vault", "secret", "password", "credential", "key"]

/-- check_vault_encryption from ansible-security-scan.py: a whole-content
check on whether the file starts with the vault magic. -/
def check_vault_encryption (p content : String) : List ScanIssue :=
  if SENSITIVE_FILE_FRAGMENTS.any (fun s => containsStr (lowerStr (pathName p)) s) then
    if leadsWith ("$ANSIBLE_VAULT").data content.data then []
    else
      [⟨1, "File appears to contain secrets but is not vault-encrypted",
        "unencrypted_vault", "File should be encrypted with ansible-vault"⟩]
  else []

/-- The per-line part of check_ansible_security: skip blank or
hash-started lines, then report every matching pattern. -/
def scanAnsibleLine (E : ReEngine) (n : Nat) (line : String) : List ScanIssue :=
  if (pyStrip line).data.isEmpty || leadsWith ['#'] (pyStrip line).data then []
  else
    flatMapL (fun grp =>
      flatMapL (fun pat =>
        if E.rsearch pat line then [⟨n, pyStrip line, grp.name, grp.description⟩]
        else [])
        grp.patterns)
      ANSIBLE_SECURITY_PATTERNS

/-- The yml or yaml extension test used twice in check_ansible_security. -/
def yamlExt (p : String) : Bool := strEndsWith p ".yml" || strEndsWith p ".yaml"

/-- check_ansible_security from ansible-security-scan.py: gate on
is_ansible_file, then on the whole-document YAML content for yml and yaml
files; the findings are the vault check, the line scan, and the
structure analysis, in that order.  The second component is the list of
error messages printed to standard error. -/
def check_ansible_security (env : YamlEnv) (E : ReEngine) (fs : FS) (p : String) :
    List ScanIssue × List String :=
  if !is_ansible_file p then ([], [])
  else
    match fs p with
    | none => ([], ["Error analyzing " ++ p])
    | some content =>
      if yamlExt p && !(env.isAnsibleYaml content) then ([], [])
      else
        (check_vault_encryption p content ++
          flatMapL (fun nl => scanAnsibleLine E nl.1 nl.2)
            (enumFromN 1 (pySplit content '\n')) ++
          (if yamlExt p then env.structIssues content else []), [])

/-- The issues main of ansible-security-scan.py reports for one file. -/
def ansibleFileIssues (env : YamlEnv) (E : ReEngine) (fs : FS) (args : SevArgs)
    (p : String) : List ScanIssue :=
  filterBySeverity ANSIBLE_SECURITY_PATTERNS args.severity
    (check_ansible_security env E fs p).1

/-- The exit code of main in ansible-security-scan.py. -/
def mainAnsibleExit (env : YamlEnv) (E : ReEngine) (fs : FS) (args : SevArgs)
    (files : List String) : Nat :=
  files.foldl (fun ec p => if (ansibleFileIssues env E fs args p).isEmpty then ec else 1) 0

/-- The per-file reports of a run of the Ansible scanner. -/
def runAnsible (env : YamlEnv) (E : ReEngine) (fs : FS) (args : SevArgs)
    (files : List String) : List (String × List ScanIssue) :=
  files.map (fun p => (p, ansibleFileIssues env E fs args p))

/-! ## dotnet-security-scan.py -/

/-- The DOTNET_SECURITY_PATTERNS table. -/
def DOTNET_SECURITY_PATTERNS : List PatternGroup :=
  [{ name := "sql_injection",
     patterns :=
       ["new\\s+SqlCommand\\s*\\([^)]*\\+[^)]*\\)",
        "CommandText\\s*=\\s*[^;]*\\+[^;]*",
        "ExecuteQuery\\s*\\([^)]*\\+[^)]*\\)",
        "ExecuteScalar\\s*\\([^)]*\\+[^)]*\\)",
        "string\\.Format\\s*\\([^)]*SELECT[^)]*\\)",
        "string\\.Concat\\s*\\([^)]*SELECT[^)]*\\)"],
     description := "Potential SQL injection - use parameterized queries",
     severity := "high" },
   { name := "path_traversal",
     patterns :=
       ["Path\\.Combine\\s*\\([^)]*Request\\.",
        "File\\.ReadAllText\\s*\\([^)]*Request\\.",
        "File\\.WriteAllText\\s*\\([^)]*Request\\.",
        "FileStream\\s*\\([^)]*Request\\.",
        "\\.\\.[\\\\/]"],
     description := "Potential path traversal vulnerability",
     severity := "high" },
   { name := "deserialization",
     patterns :=
       ["BinaryFormatter\\.Deserialize",
        "XmlSerializer\\.Deserialize.*untrusted",
        "JsonConvert\\.DeserializeObject.*Request\\.",
        "JavaScriptSerializer\\.Deserialize",
        "DataContractJsonSerializer\\.ReadObject"],
     description := "Insecure deserialization - validate input sources",
     severity := "high" },
   { name := "weak_crypto",
     patterns :=
       ["MD5\\.Create\\(\\)",
        "SHA1\\.Create\\(\\)",
        "DESCryptoServiceProvider",
        "RC2CryptoServiceProvider",
        "new\\s+MD5CryptoServiceProvider",
        "new\\s+SHA1CryptoServiceProvider"],
     description := "Weak cryptographic algorithm - use SHA-256 or stronger",
     severity := "medium" },
   { name := "hardcoded_secrets",
     patterns :=
       ["connectionString\\s*=\\s*[\x22\x27][^\x22\x27]*password[^\x22\x27]*[\x22\x27]",
        "Password\\s*=\\s*[\x22\x27][^\x22\x27]\x7b3,\x7d[\x22\x27]",
        "ApiKey\\s*=\\s*[\x22\x27][^\x22\x27]\x7b10,\x7d[\x22\x27]",
        "SecretKey\\s*=\\s*[\x22\x27][^\x22\x27]\x7b10,\x7d[\x22\x27]"],
     description := "Hardcoded credentials detected - use configuration/secrets",
     severity := "high" },
   { name := "request_validation",
     patterns :=
       ["ValidateRequest\\s*=\\s*false",
        "RequestValidationMode\\.Disabled",
        "\\[ValidateInput\\s*\\(\\s*false\\s*\\)\\]",
        "HttpRequestValidationException.*ignore"],
     description := "Request validation disabled - security risk",
     severity := "medium" },
   { name := "csrf_missing",
     patterns :=
       ["\\[HttpPost\\](?!.*\\[ValidateAntiForgeryToken\\])",
        "\\.MapPost\\(",
        "app\\.Post\\("],
     description := "POST action without CSRF protection",
     severity := "medium" },
   { name := "debug_info",
     patterns :=
       ["customErrors\\s*mode\\s*=\\s*[\x22\x27]Off[\x22\x27]",
        "debug\\s*=\\s*[\x22\x27]true[\x22\x27]",
        "compilation.*debug\\s*=\\s*[\x22\x27]true[\x22\x27]",
        "<system\\.web>.*<compilation.*debug=\x22true\x22"],
     description := "Debug mode enabled in production config",
     severity := "low" },
   { name := "open_redirect",
     patterns :=
       ["Response\\.Redirect\\s*\\([^)]*Request\\.",
        "RedirectToAction\\s*\\([^)]*Request\\.",
        "Redirect\\s*\\([^)]*Request\\.QueryString"],
     description := "Potential open redirect vulnerability",
     severity := "medium" },
   { name := "xxe_vulnerability",
     patterns :=
       ["XmlDocument\\.Load.*Request\\.",
        "XmlTextReader.*Request\\.",
        "XPathDocument.*Request\\.",
        "XmlReaderSettings.*DtdProcessing.*Parse"],
     description := "Potential XXE vulnerability - disable external entities",
     severity := "medium" },
   { name := "information_disclosure",
     patterns :=
       ["Exception\\.ToString\\(\\)",
        "ex\\.Message.*Response\\.Write",
        "Exception.*InnerException",
        "StackTrace.*Response"],
     description := "Potential information disclosure through error messages",
     severity := "low" }]

/-- The DOTNET_EXTENSIONS set. -/
def DOTNET_EXTENSIONS : List String :=
  [".cs", ".vb", ".fs", ".aspx", ".ascx", ".ashx", ".asmx", ".config"]

/-- The CONFIG_FILES set of dotnet-security-scan.py. -/
def DOTNET_CONFIG_FILES : List String :=
  ["web.config", "app.config", "appsettings.json", "appsettings.*.json"]

/-- should_check_file from dotnet-security-scan.py. -/
def should_check_file_dotnet (E : ReEngine) (p : String) : Bool :=
  memStr DOTNET_EXTENSIONS (lowerStr (pathSuffix p)) ||
  memStr DOTNET_CONFIG_FILES (lowerStr (pathName p)) ||
  E.rmatch "appsettings\\..*\\.json$" (lowerStr (pathName p))

/-- The keyword fragments of the config-secret check. -/
def CONFIG_SECRET_KEYS : List String := ["password=", "pwd=", "secret=", "key="]

/-- The fragments that mark a config value as safe. -/
def CONFIG_SAFE_MARKS : List String := ["$(", "$\x7b", "%", "placeholder", "your_"]

/-- One line of analyze_config_file from dotnet-security-scan.py: the
secret check, the custom-errors check and the debug check, in order. -/
def analyzeConfigLine (n : Nat) (line : String) : List ScanIssue :=
  (if CONFIG_SECRET_KEYS.any (fun k => containsStr (lowerStr line) k) &&
      !(CONFIG_SAFE_MARKS.any (fun s => containsStr (lowerStr line) s)) then
    [⟨n, pyStrip line, "config_secrets",
      "Potential hardcoded secret in configuration file"⟩]
  else []) ++
  (if containsStr (lowerStr line) "customerrors" &&
      containsStr (lowerStr line) "mode=\x22off\x22" then
    [⟨n, pyStrip line, "debug_info",
      "Custom errors disabled - may expose sensitive information"⟩]
  else []) ++
  (if containsStr (lowerStr line) "debug=\x22true\x22" then
    [⟨n, pyStrip line, "debug_info",
      "Debug mode enabled - should be disabled in production"⟩]
  else [])

/-- The per-line part of the pattern scan of check_dotnet_security: skip
blank lines only, then report every matching pattern. -/
def scanDotnetLine (E : ReEngine) (n : Nat) (line : String) : List ScanIssue :=
  if (pyStrip line).data.isEmpty then []
  else
    flatMapL (fun grp =>
      flatMapL (fun pat =>
        if E.rsearch pat line then [⟨n, pyStrip line, grp.name, grp.description⟩]
        else [])
        grp.patterns)
      DOTNET_SECURITY_PATTERNS

/-- Does the file name contain one of the config-file names, triggering
the special config analysis? -/
def dotnetConfigName (p : String) : Bool :=
  DOTNET_CONFIG_FILES.any (fun c => containsStr (lowerStr (pathName p)) c)

/-- check_dotnet_security from dotnet-security-scan.py: the config-file
analysis for config-named files followed by the pattern line scan.  The
second component is the list of error messages printed to standard error. -/
def check_dotnet_security (E : ReEngine) (fs : FS) (p : String) :
    List ScanIssue × List String :=
  if !should_check_file_dotnet E p then ([], [])
  else
    match fs p with
    | none => ([], ["Error analyzing " ++ p])
    | some content =>
      ((if dotnetConfigName p then
          flatMapL (fun nl => analyzeConfigLine nl.1 nl.2)
            (enumFromN 1 (pySplit content '\n'))
        else []) ++
        flatMapL (fun nl => scanDotnetLine E nl.1 nl.2)
          (enumFromN 1 (pySplit content '\n')), [])

/-- The issues main of dotnet-security-scan.py reports for one file. -/
def dotnetFileIssues (E : ReEngine) (fs : FS) (args : SevArgs) (p : String) :
    List ScanIssue :=
  filterBySeverity DOTNET_SECURITY_PATTERNS args.severity
    (check_dotnet_security E fs p).1

/-- The exit code of main in dotnet-security-scan.py. -/
def mainDotnetExit (E : ReEngine) (fs : FS) (args : SevArgs)
    (files : List String) : Nat :=
  files.foldl (fun ec p => if (dotnetFileIssues E fs args p).isEmpty then ec else 1) 0

/-- The per-file reports of a run of the .NET scanner. -/
def runDotnet (E : ReEngine) (fs : FS) (args : SevArgs) (files : List String) :
    List (String × List ScanIssue) :=
  files.map (fun p => (p, dotnetFileIssues E fs args p))

/-- The per-file reports of a run of the credential scanner. -/
def runCreds (E : ReEngine) (fs : FS) (files : List String) :
    List (String × List CredFinding) :=
  files.map (fun p => (p, (find_hardcoded_credentials E fs p).1))

/-! ## Concrete instances used by witnesses and counterexamples -/

/-- An engine for concrete runs in which no stdlib call finds anything;
it models the re calls at inputs on which none of the patterns in play
match, which holds of the concrete contents it is applied to below. -/
def noopEngine : ReEngine where
  finditer := fun _ _ => []
  rmatch := fun _ _ => false
  rsearch := fun _ _ => false
  groupQuoted := fun _ => none
  groupColonEq := fun _ => none

/-- An engine whose match and search calls succeed exactly when the
pattern occurs literally in the subject.  It is applied below only to
concrete subjects on which this agrees with the stdlib semantics of the
patterns in play. -/
def substrEngine : ReEngine where
  finditer := fun _ _ => []
  rmatch := fun pat s => containsStr s pat
  rsearch := fun pat s => containsStr s pat
  groupQuoted := fun _ => none
  groupColonEq := fun _ => none

/-- A file system on which every path is unreadable. -/
def fsNone : FS := fun _ => none

/-- A file system on which every file is empty. -/
def fsEmptyContent : FS := fun _ => some ""

/-- A one-file system holding a Python file with no license header. -/
def licCexFS : FS := fun p => if p == "a.py" then some "x = 1\n" else none

/-- A line carrying a hardcoded password, for the concrete credential run. -/
def credLine0 : String := "password = \x22hunter2222\x22"

/-- An engine reporting one match of the password pattern on credLine0,
with the quoted-value group extracted as the stdlib would; it models the
re calls at the concrete inputs of the witness below. -/
def oneHitEngine : ReEngine where
  finditer := fun _ line => if line == credLine0 then [credLine0] else []
  rmatch := fun _ _ => false
  rsearch := fun _ _ => false
  groupQuoted := fun _ => some "hunter2222"
  groupColonEq := fun _ => none

/-- Twenty identical lines followed by a twenty-first line, variant one. -/
def licC1 : String :=
  "a\na\na\na\na\na\na\na\na\na\na\na\na\na\na\na\na\na\na\na\nEXTRA ONE"

/-- Twenty identical lines followed by a different twenty-first line. -/
def licC2 : String :=
  "a\na\na\na\na\na\na\na\na\na\na\na\na\na\na\na\na\na\na\na\nEXTRA TWO"

/-- A file system holding variant one. -/
def licFS1 : FS := fun _ => some licC1

/-- A file system holding variant two. -/
def licFS2 : FS := fun _ => some licC2

/-- A sensitive Ansible file starting with the vault magic. -/
def ansC1 : String := "$ANSIBLE_VAULT\nhosts: x"

/-- The same two lines in the other order, no longer vault-first. -/
def ansC2 : String := "hosts: x\n$ANSIBLE_VAULT"

/-- A YAML environment for the two concrete contents above: both make
yaml.safe_load raise, so analyze_yaml_content falls back to the textual
indicator test (the word hosts occurs in both) and the structure analysis
yields nothing. -/
def ansEnv : YamlEnv where
  isAnsibleYaml := fun c => containsStr (lowerStr c) "hosts"
  structIssues := fun _ => []

/-- A file system holding the vault-first content. -/
def ansFS1 : FS := fun _ => some ansC1

/-- A file system holding the permuted content. -/
def ansFS2 : FS := fun _ => some ansC2

/-! ## Claim-side definitions -/

/-- The characterization of is_base64_encoded claimed by the specification:
length strictly greater than twenty, length a multiple of four, the
anchored alphabet-and-padding shape, and base64-decoded bytes forming
valid UTF-8; false in every other case, including a decoding error. -/
def isBase64Claim (text : String) : Bool :=
  decide (text.length > 20) && (text.length % 4 == 0) && b64RegexMatch text &&
    (match b64decodePy text with
     | some d => utf8Valid d
     | none => false)

/-- The formalization of the claim that the XML checker is a line-by-line
pattern scan: some fixed per-line predicate (the combined static pattern
table) determines the verdict of validate_xml_file, a file being valid
exactly when no line of it is flagged. -/
def xmlLineScanClaim : Prop :=
  ∃ f : String → Bool, ∀ (fs : FS) (p c : String), fs p = some c →
    ((validate_xml_file fs p = Except.ok (true, none)) ↔
      (pySplit c '\n').all (fun l => !(f l)) = true)

/-- The number of lines the credential scanner enumerates for a file:
the newline-split fragments of its content. -/
def credLineCount (fs : FS) (p : String) : Nat :=
  match fs p with
  | none => 0
  | some c => (pySplit c '\n').length

/-- The number of lines the URL scanner enumerates for a file: the lines
yielded by iterating the file object. -/
def urlLineCount (fs : FS) (p : String) : Nat :=
  match fs p with
  | none => 0
  | some c => (pyFileLines c).length

/-! ## Library lemmas about the helpers -/

lemma mem_flatMapL {α β : Type} {f : α → List β} {b : β} :
    ∀ {l : List α}, b ∈ flatMapL f l ↔ ∃ a, a ∈ l ∧ b ∈ f a := by
  intro l
  induction l with
  | nil => simp [flatMapL]
  | cons a as ih => simp [flatMapL, List.mem_append, ih]

lemma pairwise_of_all_pairs {α : Type} {R : α → α → Prop} :
    ∀ {l : List α}, (∀ a ∈ l, ∀ b ∈ l, R a b) → List.Pairwise R l := by
  intro l
  induction l with
  | nil => intro _; exact List.Pairwise.nil
  | cons a as ih =>
    intro h
    refine List.Pairwise.cons ?_ (ih ?_)
    · intro b hb; exact h a (by simp) b (by simp [hb])
    · intro x hx y hy; exact h x (by simp [hx]) y (by simp [hy])

/-- Sorting and bounds of a line-numbered scan: if a per-line scanner only
emits findings carrying its own line number, then the concatenation over
the numbered lines is non-decreasing in line number, with every number in
the scanned range. -/
lemma pairwise_flatMap_enum {α : Type} (g : Nat → String → List α) (key : α → Nat)
    (hk : ∀ n l x, x ∈ g n l → key x = n) :
    ∀ (lines : List String) (k : Nat),
      List.Pairwise (fun a b => key a ≤ key b)
          (flatMapL (fun nl => g nl.1 nl.2) (enumFromN k lines)) ∧
        ∀ x ∈ flatMapL (fun nl => g nl.1 nl.2) (enumFromN k lines),
          k ≤ key x ∧ key x < k + lines.length := by
  intro lines
  induction lines with
  | nil => intro k; simp [enumFromN, flatMapL]
  | cons l ls ih =>
    intro k
    have IH := ih (k + 1)
    have hsplit : flatMapL (fun nl => g nl.1 nl.2) (enumFromN k (l :: ls)) =
        g k l ++ flatMapL (fun nl => g nl.1 nl.2) (enumFromN (k + 1) ls) := rfl
    constructor
    · rw [hsplit, List.pairwise_append]
      refine ⟨pairwise_of_all_pairs ?_, IH.1, ?_⟩
      · intro a ha b hb
        rw [hk k l a ha, hk k l b hb]
      · intro a ha b hb
        rw [hk k l a ha]
        have := (IH.2 b hb).1
        omega
    · intro x hx
      rw [hsplit] at hx
      rcases List.mem_append.mp hx with h | h
      · have := hk k l x h
        simp only [List.length_cons]
        omega
      · have := IH.2 x h
        simp only [List.length_cons]
        omega

lemma foldl_exit_flag (h : String → Bool) :
    ∀ (files : List String) (init : Nat),
      files.foldl (fun ec p => if h p then ec else 1) init =
        if files.any (fun p => !(h p)) then 1 else init := by
  intro files
  induction files with
  | nil => intro init; simp
  | cons p ps ih =>
    intro init
    simp only [List.foldl_cons, List.any_cons]
    rw [ih]
    by_cases hp : h p = true
    · simp [hp]
    · have hp2 : h p = false := by revert hp; cases h p <;> simp
      simp [hp2]

lemma filterMapIfLen {α β : Type} (q : α → Bool) (h : α → β) :
    ∀ l : List α,
      decide (0 < (l.filterMap (fun x => if q x then some (h x) else none)).length) =
        l.any q := by
  intro l
  induction l with
  | nil => simp
  | cons a as ih => cases hq : q a <;> simp [hq, ih]

/-! ## Lemmas about the credential scan -/

lemma credHit_some_spec {E : ReEngine} {fp : String} {n : Nat}
    {line ct mt : String} {f : CredFinding}
    (h : credHit E fp n line ct mt = some f) :
    f.lineNum = n ∧ f.lineContent = pyStrip line ∧ f.credType = ct ∧
      f.value = extract_credential_value E mt ∧
      is_safe_value f.value = false ∧
      (is_safe_context E line fp = true →
        30 < f.value.length ∨ is_base64_encoded f.value = true) := by
  unfold credHit at h
  by_cases h1 : is_safe_value (extract_credential_value E mt) = true
  · simp [h1] at h
  · have h1f : is_safe_value (extract_credential_value E mt) = false := by
      revert h1; cases is_safe_value (extract_credential_value E mt) <;> simp
    rw [h1f] at h
    simp only [Bool.false_eq_true, if_false] at h
    by_cases h2 : is_safe_context E line fp = true
    · rw [h2] at h
      simp only [if_true] at h
      by_cases h3 :
          (decide (30 < (extract_credential_value E mt).length) ||
            is_base64_encoded (extract_credential_value E mt)) = true
      · rw [h3] at h
        simp only [if_true, Option.some.injEq] at h
        subst h
        refine ⟨rfl, rfl, rfl, rfl, h1f, fun _ => ?_⟩
        rcases (Bool.or_eq_true _ _).mp h3 with h4 | h4
        · exact Or.inl (of_decide_eq_true h4)
        · exact Or.inr h4
      · have h3f := Bool.not_eq_true _ |>.mp h3
        rw [h3f] at h
        simp at h
    · have h2f : is_safe_context E line fp = false := by
        revert h2; cases is_safe_context E line fp <;> simp
      rw [h2f] at h
      simp only [Bool.false_eq_true, if_false, Option.some.injEq] at h
      subst h
      exact ⟨rfl, rfl, rfl, rfl, h1f, fun hc => by rw [h2f] at hc; cases hc⟩

lemma mem_scanCredLine {E : ReEngine} {fp : String} {n : Nat} {line : String}
    {f : CredFinding} :
    f ∈ scanCredLine E fp n line ↔
      (pyStrip line).data.isEmpty = false ∧
        ∃ ctp, ctp ∈ CREDENTIAL_PATTERNS ∧
          ∃ pat, pat ∈ ctp.2 ∧
            ∃ mt, mt ∈ E.finditer pat line ∧
              credHit E fp n line ctp.1 mt = some f := by
  unfold scanCredLine
  by_cases hbl : (pyStrip line).data.isEmpty = true
  · simp [hbl]
  · have hbl2 : (pyStrip line).data.isEmpty = false := by
      revert hbl; cases (pyStrip line).data.isEmpty <;> simp
    simp [hbl2, mem_flatMapL, List.mem_filterMap]

lemma mem_scanCredLine_lineNum {E : ReEngine} {fp : String} {n : Nat}
    {line : String} {f : CredFinding} (h : f ∈ scanCredLine E fp n line) :
    f.lineNum = n := by
  obtain ⟨hbl, ctp, hctp, pat, hpat, mt, hmt, hsome⟩ := mem_scanCredLine.mp h
  exact (credHit_some_spec hsome).1

lemma mem_scanCredLine_not_safe {E : ReEngine} {fp : String} {n : Nat}
    {line : String} {f : CredFinding} (h : f ∈ scanCredLine E fp n line) :
    is_safe_value f.value = false := by
  obtain ⟨hbl, ctp, hctp, pat, hpat, mt, hmt, hsome⟩ := mem_scanCredLine.mp h
  exact (credHit_some_spec hsome).2.2.2.2.1

/-! ## Lemmas about the URL scan -/

lemma urlHit_some_spec {E : ReEngine} {n : Nat} {line url : String}
    {f : UrlFinding} (h : urlHit E n line url = some f) : f.lineNum = n := by
  unfold urlHit at h
  by_cases h1 : is_safe_url E url = true
  · simp [h1] at h
  · have h1f : is_safe_url E url = false := by
      revert h1; cases is_safe_url E url <;> simp
    rw [h1f] at h
    simp only [Bool.false_eq_true, if_false] at h
    by_cases h2 : is_in_comment E line = true
    · rw [h2] at h
      simp only [if_true] at h
      by_cases h3 :
          (URL_SUSPICIOUS_KEYWORDS.any (fun kw => containsStr (lowerStr url) kw)) = true
      · rw [h3] at h
        simp only [if_true, Option.some.injEq] at h
        subst h; rfl
      · have h3f := Bool.not_eq_true _ |>.mp h3
        rw [h3f] at h
        simp at h
    · have h2f : is_in_comment E line = false := by
        revert h2; cases is_in_comment E line <;> simp
      rw [h2f] at h
      simp only [Bool.false_eq_true, if_false, Option.some.injEq] at h
      subst h; rfl

lemma mem_scanUrlLine_lineNum {E : ReEngine} {n : Nat} {line : String}
    {f : UrlFinding} (h : f ∈ scanUrlLine E n line) : f.lineNum = n := by
  unfold scanUrlLine at h
  by_cases hbl : (pyStrip line).data.isEmpty = true
  · simp [hbl] at h
  · have hbl2 : (pyStrip line).data.isEmpty = false := by
      revert hbl; cases (pyStrip line).data.isEmpty <;> simp
    rw [hbl2] at h
    simp only [Bool.false_eq_true, if_false] at h
    obtain ⟨pat, hp, hmem⟩ := mem_flatMapL.mp h
    obtain ⟨mt, hm, hsome⟩ := List.mem_filterMap.mp hmem
    exact urlHit_some_spec hsome

/-! ## Lemmas about reading failures -/

lemma find_creds_unreadable {E : ReEngine} {fs : FS} {p : String}
    (h : fs p = none) : (find_hardcoded_credentials E fs p).1 = [] := by
  unfold find_hardcoded_credentials
  by_cases hskip : (SKIP_EXTENSIONS.any fun ext => strEndsWith p ext) = true
  · simp [hskip]
  · have hskip2 : (SKIP_EXTENSIONS.any fun ext => strEndsWith p ext) = false := by
      revert hskip; cases (SKIP_EXTENSIONS.any fun ext => strEndsWith p ext) <;> simp
    simp [hskip2, h]

lemma find_urls_unreadable {E : ReEngine} {fs : FS} {p : String}
    (h : fs p = none) : (find_hardcoded_urls E fs p).1 = [] := by
  unfold find_hardcoded_urls
  by_cases hskip : (SKIP_EXTENSIONS.any fun ext => strEndsWith p ext) = true
  · simp [hskip]
  · have hskip2 : (SKIP_EXTENSIONS.any fun ext => strEndsWith p ext) = false := by
      revert hskip; cases (SKIP_EXTENSIONS.any fun ext => strEndsWith p ext) <;> simp
    simp [hskip2, h]

/-! ## Lemmas about the license checker -/

lemma licStep_fst (E : ReEngine) (fs : FS) (args : LicArgs)
    (st : Nat × List LicReport) (p : String) :
    (licStep E fs args st p).1 =
      if args.requireLicense && licFileFails E fs args p then 1 else st.1 := by
  unfold licStep licFileFails
  by_cases hc : should_check_file p = true
  · simp only [hc, Bool.not_true, Bool.false_eq_true, if_false, Bool.true_and]
    by_cases hb : (has_license_header E fs p).1 = true
    · simp only [hb, if_true]
      cases hlt : args.licenseType with
      | none => cases hr : args.requireLicense <;> simp [hr]
      | some lt =>
        by_cases hm : memStr (has_license_header E fs p).2 lt = true
        · cases hr : args.requireLicense <;> simp [hm, hr]
        · have hm2 : memStr (has_license_header E fs p).2 lt = false := by
            revert hm; cases memStr (has_license_header E fs p).2 lt <;> simp
          cases hr : args.requireLicense <;> simp [hm2, hr]
    · have hb2 : (has_license_header E fs p).1 = false := by
        revert hb; cases (has_license_header E fs p).1 <;> simp
      simp only [hb2, Bool.false_eq_true, if_false]
      cases hr : args.requireLicense <;> simp [hr]
  · have hc2 : should_check_file p = false := by
      revert hc; cases should_check_file p <;> simp
    simp [hc2]

lemma mainLicense_foldl_fst (E : ReEngine) (fs : FS) (args : LicArgs) :
    ∀ (files : List String) (st : Nat × List LicReport),
      (files.foldl (licStep E fs args) st).1 =
        if args.requireLicense && files.any (licFileFails E fs args) then 1
        else st.1 := by
  intro files
  induction files with
  | nil => intro st; simp
  | cons p ps ih =>
    intro st
    simp only [List.foldl_cons, List.any_cons]
    rw [ih, licStep_fst]
    cases hr : args.requireLicense
    · simp
    · by_cases hp : licFileFails E fs args p = true
      · simp [hp]
      · have hp2 : licFileFails E fs args p = false := by
          revert hp; cases licFileFails E fs args p <;> simp
        simp [hp2]

/-! ## Lemmas about the XML checker -/

lemma validate_xml_file_ok (fs : FS) (p : String) :
    ∃ r, validate_xml_file fs p = Except.ok r := by
  unfold validate_xml_file
  cases etParse fs p with
  | ok u => exact ⟨_, rfl⟩
  | error e => cases e <;> exact ⟨_, rfl⟩

lemma validate_xml_file_isOk (fs : FS) (p : String) :
    (validate_xml_file fs p).isOk = true := by
  obtain ⟨r, hr⟩ := validate_xml_file_ok fs p
  rw [hr]
  rfl

lemma xmlStep_eq_pure (fs : FS) (st : Nat × List XReport) (p : String) :
    xmlStep fs st p = Except.ok (xmlStepPure fs st p) := by
  obtain ⟨r, hr⟩ := validate_xml_file_ok fs p
  unfold xmlStep xmlStepPure
  rw [hr]
  obtain ⟨b, m⟩ := r
  cases b <;> rfl

lemma mainXml_eq_pure (fs : FS) :
    ∀ (files : List String) (st : Nat × List XReport),
      List.foldlM (xmlStep fs) st files =
        Except.ok (files.foldl (xmlStepPure fs) st) := by
  intro files
  induction files with
  | nil => intro st; rfl
  | cons p ps ih =>
    intro st
    rw [List.foldlM_cons, xmlStep_eq_pure]
    simpa using ih (xmlStepPure fs st p)

lemma xmlStepPure_reports (fs : FS) (st : Nat × List XReport) (p : String)
    (h : st.2.all (fun r => !(isNotFoundReport r)) = true) :
    (xmlStepPure fs st p).2.all (fun r => !(isNotFoundReport r)) = true := by
  unfold xmlStepPure
  cases hv : validate_xml_file fs p with
  | ok v =>
    obtain ⟨b, m⟩ := v
    cases b <;> (dsimp only; rw [List.all_append, h]; rfl)
  | error e => exact h

lemma xmlFold_reports (fs : FS) :
    ∀ (files : List String) (st : Nat × List XReport),
      st.2.all (fun r => !(isNotFoundReport r)) = true →
      (files.foldl (xmlStepPure fs) st).2.all (fun r => !(isNotFoundReport r)) = true := by
  intro files
  induction files with
  | nil => intro st h; exact h
  | cons p ps ih =>
    intro st h
    simp only [List.foldl_cons]
    exact ih (xmlStepPure fs st p) (xmlStepPure_reports fs st p h)

lemma xmlStepPure_fst (fs : FS) (st : Nat × List XReport) (p : String) :
    (xmlStepPure fs st p).1 = if badXml fs p then 1 else st.1 := by
  unfold xmlStepPure badXml
  cases hv : validate_xml_file fs p with
  | ok v =>
    obtain ⟨b, m⟩ := v
    cases b <;> rfl
  | error e => rfl

lemma xmlFold_fst (fs : FS) :
    ∀ (files : List String) (st : Nat × List XReport),
      (files.foldl (xmlStepPure fs) st).1 =
        if files.any (badXml fs) then 1 else st.1 := by
  intro files
  induction files with
  | nil => intro st; simp
  | cons p ps ih =>
    intro st
    simp only [List.foldl_cons, List.any_cons]
    rw [ih, xmlStepPure_fst]
    by_cases hp : badXml fs p = true
    · simp [hp]
    · have hp2 : badXml fs p = false := by
        revert hp; cases badXml fs p <;> simp
      simp [hp2]

lemma validate_xml_missing (fs : FS) (p : String) (h : fs p = none) :
    validate_xml_file fs p =
      Except.ok (false, some ("Unexpected error: " ++ pyExcMsg (PyExc.fileNotFound p))) := by
  unfold validate_xml_file etParse
  rw [h]

/-! ## Per-file report lemmas -/

lemma run_map_det {α : Type} (g : String → α) (files1 files2 : List String)
    (p : String) (f1 f2 : α)
    (h1 : (p, f1) ∈ files1.map (fun q => (q, g q)))
    (h2 : (p, f2) ∈ files2.map (fun q => (q, g q))) : f1 = f2 := by
  obtain ⟨q1, hq1, he1⟩ := List.mem_map.mp h1
  obtain ⟨q2, hq2, he2⟩ := List.mem_map.mp h2
  have hp1 : q1 = p := congrArg Prod.fst he1
  have hf1 : g q1 = f1 := congrArg Prod.snd he1
  have hp2 : q2 = p := congrArg Prod.fst he2
  have hf2 : g q2 = f2 := congrArg Prod.snd he2
  rw [← hf1, ← hf2, hp1, hp2]

lemma licStep_snd (E : ReEngine) (fs : FS) (args : LicArgs)
    (st : Nat × List LicReport) (p : String) :
    (licStep E fs args st p).2 = st.2 ++ licFileReports E fs args p := by
  unfold licStep licFileReports
  by_cases hc : should_check_file p = true
  · simp only [hc, Bool.not_true, Bool.false_eq_true, if_false]
    by_cases hb : (has_license_header E fs p).1 = true
    · simp only [hb, if_true]
      cases hlt : args.licenseType with
      | none => simp
      | some lt =>
        by_cases hm : memStr (has_license_header E fs p).2 lt = true
        · simp [hm]
        · have hm2 : memStr (has_license_header E fs p).2 lt = false := by
            revert hm; cases memStr (has_license_header E fs p).2 lt <;> simp
          cases hr : args.requireLicense <;> simp [hm2, hr]
    · have hb2 : (has_license_header E fs p).1 = false := by
        revert hb; cases (has_license_header E fs p).1 <;> simp
      simp only [hb2, Bool.false_eq_true, if_false]
      cases hr : args.requireLicense <;> simp [hr]
  · have hc2 : should_check_file p = false := by
      revert hc; cases should_check_file p <;> simp
    simp [hc2]

lemma mainLicense_reports (E : ReEngine) (fs : FS) (args : LicArgs) :
    ∀ (files : List String) (st : Nat × List LicReport),
      (files.foldl (licStep E fs args) st).2 =
        st.2 ++ flatMapL (licFileReports E fs args) files := by
  intro files
  induction files with
  | nil => intro st; simp [flatMapL]
  | cons p ps ih =>
    intro st
    simp only [List.foldl_cons]
    rw [ih (licStep E fs args st p), licStep_snd]
    simp [flatMapL, List.append_assoc]

lemma xmlStepPure_snd (fs : FS) (st : Nat × List XReport) (p : String) :
    (xmlStepPure fs st p).2 = st.2 ++ [xmlFileReport fs p] := by
  obtain ⟨r, hr⟩ := validate_xml_file_ok fs p
  unfold xmlStepPure xmlFileReport
  rw [hr]
  obtain ⟨b, m⟩ := r
  cases b <;> rfl

lemma xmlFold_reports_eq (fs : FS) :
    ∀ (files : List String) (st : Nat × List XReport),
      (files.foldl (xmlStepPure fs) st).2 = st.2 ++ files.map (xmlFileReport fs) := by
  intro files
  induction files with
  | nil => intro st; simp
  | cons p ps ih =>
    intro st
    simp only [List.foldl_cons, List.map_cons]
    rw [ih (xmlStepPure fs st p), xmlStepPure_snd]
    simp [List.append_assoc]

lemma xmlFinding_eq_bad (fs : FS) (p : String) :
    isXmlFinding (xmlFileReport fs p) = badXml fs p := by
  obtain ⟨r, hr⟩ := validate_xml_file_ok fs p
  unfold xmlFileReport badXml
  rw [hr]
  obtain ⟨b, m⟩ := r
  cases b <;> rfl

/-- The core of the refutation: no per-line predicate can decide the
verdict of validate_xml_file, because the two documents made of the tags
of a root element in the two orders have the same lines but opposite
verdicts. -/
lemma xmlNotLineLocal : ¬ xmlLineScanClaim := by
  intro hclaim
  obtain ⟨f, hf⟩ := hclaim
  have h1 := hf (fun _ => some "<a>\n</a>") "d" "<a>\n</a>" rfl
  have h2 := hf (fun _ => some "</a>\n<a>") "d" "</a>\n<a>" rfl
  have hv1 : validate_xml_file (fun _ => some "<a>\n</a>") "d" =
      Except.ok (true, none) := rfl
  have hall1 := h1.mp hv1
  have e1 : pySplit "<a>\n</a>" '\n' = ["<a>", "</a>"] := rfl
  have e2 : pySplit "</a>\n<a>" '\n' = ["</a>", "<a>"] := rfl
  rw [e1] at hall1
  simp only [List.all_cons, List.all_nil, Bool.and_true, Bool.and_eq_true,
    Bool.not_eq_true'] at hall1
  have hall2 : (pySplit "</a>\n<a>" '\n').all (fun l => !(f l)) = true := by
    rw [e2]
    simp only [List.all_cons, List.all_nil, Bool.and_true, Bool.and_eq_true,
      Bool.not_eq_true']
    exact ⟨hall1.2, hall1.1⟩
  have hv2 := h2.mpr hall2
  have hv2c : validate_xml_file (fun _ => some "</a>\n<a>") "d" =
      Except.ok (false, some ("XML Parse Error: " ++ "d")) := rfl
  rw [hv2c] at hv2
  simp at hv2

/-! ## The claims -/

/-- C1, amended: for the credential, URL, verbose-flag, Ansible, .NET and
XML scanners, the exit code is one exactly when some input file has a
nonempty reported finding list (after the optional severity filter for
the three severity-aware scanners), and zero otherwise; the license
checker alone violates the biconditional: it sets exit code one exactly
when the require-license flag is passed and some checked file lacks a
license header or lacks the requested license type — without the flag it
reports missing headers but still exits zero. -/
theorem claim1_scanner_exit_codes (env : YamlEnv) (E : ReEngine) (fs : FS)
    (files : List String) (largs : LicArgs) (vargs : VerboseArgs)
    (aargs dargs : SevArgs) :
    mainCredsExit E fs files =
        (if files.any (fun p => !((find_hardcoded_credentials E fs p).1.isEmpty))
          then 1 else 0) ∧
      mainUrlsExit E fs files =
        (if files.any (fun p => !((find_hardcoded_urls E fs p).1.isEmpty))
          then 1 else 0) ∧
      mainVerboseExit E fs vargs files =
        (if files.any (fun p => !((verboseFileIssues E fs vargs p).isEmpty))
          then 1 else 0) ∧
      mainAnsibleExit env E fs aargs files =
        (if files.any (fun p => !((ansibleFileIssues env E fs aargs p).isEmpty))
          then 1 else 0) ∧
      mainDotnetExit E fs dargs files =
        (if files.any (fun p => !((dotnetFileIssues E fs dargs p).isEmpty))
          then 1 else 0) ∧
      (∀ res, mainXml fs files = Except.ok res →
        res.1 = (if res.2.any isXmlFinding then 1 else 0)) ∧
      (mainLicense E fs largs files).1 =
        (if largs.requireLicense && files.any (licFileFails E fs largs) then 1 else 0) := by
  refine ⟨?_, ?_, ?_, ?_, ?_, ?_, ?_⟩
  · exact foldl_exit_flag (fun p => (find_hardcoded_credentials E fs p).1.isEmpty) files 0
  · exact foldl_exit_flag (fun p => (find_hardcoded_urls E fs p).1.isEmpty) files 0
  · exact foldl_exit_flag (fun p => (verboseFileIssues E fs vargs p).isEmpty) files 0
  · exact foldl_exit_flag (fun p => (ansibleFileIssues env E fs aargs p).isEmpty) files 0
  · exact foldl_exit_flag (fun p => (dotnetFileIssues E fs dargs p).isEmpty) files 0
  · intro res hres
    unfold mainXml at hres
    rw [mainXml_eq_pure] at hres
    have hres2 : files.foldl (xmlStepPure fs) (0, []) = res := by injection hres
    have hany : ∀ l : List String,
        (List.map (xmlFileReport fs) l).any isXmlFinding = l.any (badXml fs) := by
      intro l
      induction l with
      | nil => rfl
      | cons q qs ih => simp only [List.map_cons, List.any_cons, ih, xmlFinding_eq_bad]
    rw [← hres2, xmlFold_fst, xmlFold_reports_eq]
    simp [hany files]
  · exact mainLicense_foldl_fst E fs largs files (0, [])

/-- C1, counterexample: a run of the license checker on one Python file
with no license header and without the require-license flag prints a
missing-header finding yet exits zero, so the exit code is not one
whenever a finding is reported. -/
theorem claim1_license_warns_but_exits_zero_cex :
    (mainLicense substrEngine licCexFS ⟨false, none⟩ ["a.py"]).1 = 0 ∧
      ((mainLicense substrEngine licCexFS ⟨false, none⟩ ["a.py"]).2.any
        isFindingReport) = true := by
  constructor
  · rfl
  · rfl

/-- C2, counterexample: the claim that the XML syntax checker has the
same per-file shape as the regex scanners — a line-by-line scan against a
static pattern table — is false: no per-line predicate decides the
verdict of validate_xml_file. -/
theorem claim2_xml_not_line_scan_cex : ¬ xmlLineScanClaim := xmlNotLineLocal

/-- C2, amended: the per-file checks of the credential, URL, verbose-flag
and .NET scanners are line-by-line scans — their findings are the
concatenation of a fixed per-line function over the numbered lines (the
.NET scanner prepending a per-line configuration analysis for
configuration-named files); the XML syntax checker is not of this shape,
no per-line predicate deciding its verdict; the Ansible scanner's check
is not determined by the lines alone either, its vault check reading the
start of the whole content; and the license checker searches the joined
first-twenty-line head instead of scanning lines. -/
theorem claim2_line_scan_shape :
    (∃ g : ReEngine → String → Nat → String → List CredFinding,
      ∀ (E : ReEngine) (fs : FS) (p c : String), fs p = some c →
        (SKIP_EXTENSIONS.any fun ext => strEndsWith p ext) = false →
        (find_hardcoded_credentials E fs p).1 =
          flatMapL (fun nl => g E p nl.1 nl.2) (enumFromN 1 (pySplit c '\n'))) ∧
      (∃ g : ReEngine → Nat → String → List UrlFinding,
        ∀ (E : ReEngine) (fs : FS) (p c : String), fs p = some c →
          (SKIP_EXTENSIONS.any fun ext => strEndsWith p ext) = false →
          (find_hardcoded_urls E fs p).1 =
            flatMapL (fun nl => g E nl.1 nl.2) (enumFromN 1 (pyFileLines c))) ∧
      (∃ g : ReEngine → String → Nat → String → List ScanIssue,
        ∀ (E : ReEngine) (fs : FS) (p c : String), fs p = some c →
          should_check_file_verbose p = true →
          (check_verbose_flags E fs p).1 =
            flatMapL (fun nl => g E p nl.1 nl.2) (enumFromN 1 (pySplit c '\n'))) ∧
      (∃ g1 : Nat → String → List ScanIssue,
        ∃ g2 : ReEngine → Nat → String → List ScanIssue,
        ∀ (E : ReEngine) (fs : FS) (p c : String), fs p = some c →
          should_check_file_dotnet E p = true →
          (check_dotnet_security E fs p).1 =
            (if dotnetConfigName p then
              flatMapL (fun nl => g1 nl.1 nl.2) (enumFromN 1 (pySplit c '\n'))
            else []) ++
              flatMapL (fun nl => g2 E nl.1 nl.2) (enumFromN 1 (pySplit c '\n'))) ∧
      ¬ xmlLineScanClaim ∧
      ((pySplit ansC1 '\n').Perm (pySplit ansC2 '\n') ∧
        (check_ansible_security ansEnv noopEngine ansFS1 "vault.yml").1 ≠
          (check_ansible_security ansEnv noopEngine ansFS2 "vault.yml").1) ∧
      (∀ (E : ReEngine) (fs : FS) (p : String),
        (has_license_header E fs p).1 =
          LICENSE_PATTERNS.any
            (fun lp => lp.2.any (fun pat => E.rsearch pat (read_file_head fs p)))) := by
  refine ⟨?_, ?_, ?_, ?_, xmlNotLineLocal, ⟨by decide, by decide⟩, ?_⟩
  · refine ⟨fun E p n l => scanCredLine E p n l, ?_⟩
    intro E fs p c hc hskip
    unfold find_hardcoded_credentials
    rw [hskip]
    simp only [Bool.false_eq_true, if_false]
    rw [hc]
  · refine ⟨fun E n l => scanUrlLine E n l, ?_⟩
    intro E fs p c hc hskip
    unfold find_hardcoded_urls
    rw [hskip]
    simp only [Bool.false_eq_true, if_false]
    rw [hc]
  · refine ⟨fun E p n l => scanVerboseLine E (is_safe_context_verbose E p) n l, ?_⟩
    intro E fs p c hc hchk
    unfold check_verbose_flags
    rw [hchk]
    simp only [Bool.not_true, Bool.false_eq_true, if_false]
    rw [hc]
  · refine ⟨fun n l => analyzeConfigLine n l, fun E n l => scanDotnetLine E n l, ?_⟩
    intro E fs p c hc hchk
    unfold check_dotnet_security
    rw [hchk]
    simp only [Bool.not_true, Bool.false_eq_true, if_false]
    rw [hc]
  · intro E fs p
    unfold has_license_header
    exact filterMapIfLen
      (fun lp => lp.2.any (fun pat => E.rsearch pat (read_file_head fs p)))
      (fun lp => lp.1) LICENSE_PATTERNS

/-- C3, counterexample: an unreadable file whose name has a skipped
binary extension is returned before any open is attempted, so no error
message is printed for it, contradicting the claim that every unreadable
input file produces a standard-error message. -/
theorem claim3_skipped_unreadable_no_error_cex :
    fsNone "a.png" = none ∧
      (find_hardcoded_credentials noopEngine fsNone "a.png").2 = [] ∧
      (find_hardcoded_urls noopEngine fsNone "a.png").2 = [] :=
  ⟨rfl, rfl, rfl⟩

/-- C3, amended: an unreadable file contributes no findings to either
scanner; when its extension is not skipped the caught exception prints
one error message for it; and a run whose every file is unreadable exits
zero in both scanners. -/
theorem claim3_unreadable_files (E : ReEngine) (fs : FS) (p : String)
    (files : List String) :
    (fs p = none →
      (find_hardcoded_credentials E fs p).1 = [] ∧
        (find_hardcoded_urls E fs p).1 = [] ∧
        ((SKIP_EXTENSIONS.any fun ext => strEndsWith p ext) = false →
          (find_hardcoded_credentials E fs p).2 = ["Error reading " ++ p] ∧
            (find_hardcoded_urls E fs p).2 = ["Error reading " ++ p])) ∧
      ((∀ q ∈ files, fs q = none) →
        mainCredsExit E fs files = 0 ∧ mainUrlsExit E fs files = 0) := by
  constructor
  · intro hp
    refine ⟨find_creds_unreadable hp, find_urls_unreadable hp, ?_⟩
    intro hskip
    constructor
    · unfold find_hardcoded_credentials
      rw [hskip]
      simp only [Bool.false_eq_true, if_false]
      rw [hp]
    · unfold find_hardcoded_urls
      rw [hskip]
      simp only [Bool.false_eq_true, if_false]
      rw [hp]
  · intro hall
    constructor
    · unfold mainCredsExit
      rw [foldl_exit_flag]
      have hfalse :
          (files.any fun q => !(find_hardcoded_credentials E fs q).1.isEmpty) = false := by
        by_cases hany :
            (files.any fun q => !(find_hardcoded_credentials E fs q).1.isEmpty) = true
        · obtain ⟨q, hq, hqq⟩ := List.any_eq_true.mp hany
          rw [find_creds_unreadable (hall q hq)] at hqq
          simp at hqq
        · revert hany
          cases files.any fun q => !(find_hardcoded_credentials E fs q).1.isEmpty <;> simp
      rw [hfalse]
      simp
    · unfold mainUrlsExit
      rw [foldl_exit_flag]
      have hfalse :
          (files.any fun q => !(find_hardcoded_urls E fs q).1.isEmpty) = false := by
        by_cases hany :
            (files.any fun q => !(find_hardcoded_urls E fs q).1.isEmpty) = true
        · obtain ⟨q, hq, hqq⟩ := List.any_eq_true.mp hany
          rw [find_urls_unreadable (hall q hq)] at hqq
          simp at hqq
        · revert hany
          cases files.any fun q => !(find_hardcoded_urls E fs q).1.isEmpty <;> simp
      rw [hfalse]
      simp

/-- Witness for the amended C3 at a concrete unreadable text file. -/
theorem claim3_unreadable_files_witness :
    fsNone "a.txt" = none ∧
      (find_hardcoded_credentials noopEngine fsNone "a.txt").1 = [] ∧
      mainCredsExit noopEngine fsNone ["a.txt"] = 0 := by
  refine ⟨rfl, ?_, ?_⟩
  · exact ((claim3_unreadable_files noopEngine fsNone "a.txt" ["a.txt"]).1 rfl).1
  · exact ((claim3_unreadable_files noopEngine fsNone "a.txt" ["a.txt"]).2
      (fun q hq => rfl)).1

/-- C4: is_base64_encoded returns true exactly when the length exceeds
twenty, the length is a multiple of four, the text has the anchored
alphabet-and-padding shape, and the decoded bytes are valid UTF-8; in
every other case, including a decoding error, it returns false. -/
theorem claim4_is_base64_encoded_spec (text : String) :
    is_base64_encoded text = isBase64Claim text := by
  unfold is_base64_encoded isBase64Claim b64decodePy
  by_cases h1 : (text.length % 4 == 0) = true
  · by_cases h2 : b64RegexMatch text = true
    · have hg : ((text.length % 4 == 0) && b64RegexMatch text) = true := by
        rw [h1, h2]; rfl
      rw [hg, h1, h2]
      simp only [if_true]
      cases hu : utf8Valid (b64DecodeVals ((text.data.takeWhile isB64Char).map b64CharVal)) <;>
        cases hd : decide (text.length > 20) <;> simp [hu, hd]
    · have h2f : b64RegexMatch text = false := by
        revert h2; cases b64RegexMatch text <;> simp
      have hg : ((text.length % 4 == 0) && b64RegexMatch text) = false := by
        rw [h2f, Bool.and_false]
      rw [hg, h2f]
      simp
  · have h1f : (text.length % 4 == 0) = false := by
      revert h1; cases text.length % 4 == 0 <;> simp
    have hg : ((text.length % 4 == 0) && b64RegexMatch text) = false := by
      rw [h1f, Bool.false_and]
    rw [hg, h1f]
    simp

/-- C5: every finding reported by find_hardcoded_credentials carries a
value that is_safe_value rejects, so a safe value — one that, stripped of
quotes and lowercased, is in SAFE_VALUES, or is shorter than four
characters, or is one repeated character, or contains a placeholder
indicator — is never reported, in any file and any context. -/
theorem claim5_safe_values_never_reported (E : ReEngine) (fs : FS) (p : String) :
    ((find_hardcoded_credentials E fs p).1.all fun f => !(is_safe_value f.value)) = true := by
  rw [List.all_eq_true]
  intro f hf
  unfold find_hardcoded_credentials at hf
  by_cases hskip : (SKIP_EXTENSIONS.any fun ext => strEndsWith p ext) = true
  · rw [hskip] at hf
    simp at hf
  · have hs2 : (SKIP_EXTENSIONS.any fun ext => strEndsWith p ext) = false := by
      revert hskip; cases SKIP_EXTENSIONS.any fun ext => strEndsWith p ext <;> simp
    rw [hs2] at hf
    simp only [Bool.false_eq_true, if_false] at hf
    cases hfs : fs p with
    | none =>
      rw [hfs] at hf
      simp at hf
    | some c =>
      rw [hfs] at hf
      dsimp only at hf
      obtain ⟨nl, hnl, hmem⟩ := mem_flatMapL.mp hf
      rw [mem_scanCredLine_not_safe hmem]
      rfl

/-- C6: for a line matching a credential pattern with a non-safe value,
the finding built from that match is reported exactly when either the
line and file are not in a safe context, or the extracted value is longer
than thirty characters, or it is detected as base64-encoded. -/
theorem claim6_safe_context_reporting (E : ReEngine) (fp : String) (n : Nat)
    (line ct pat mt : String) (pats : List String)
    (hct : (ct, pats) ∈ CREDENTIAL_PATTERNS) (hpat : pat ∈ pats)
    (hmt : mt ∈ E.finditer pat line)
    (hbl : (pyStrip line).data.isEmpty = false)
    (hns : is_safe_value (extract_credential_value E mt) = false) :
    ((⟨n, pyStrip line, ct, extract_credential_value E mt⟩ : CredFinding) ∈
        scanCredLine E fp n line) ↔
      (is_safe_context E line fp = false ∨
        30 < (extract_credential_value E mt).length ∨
        is_base64_encoded (extract_credential_value E mt) = true) := by
  constructor
  · intro hmem
    obtain ⟨hb2, ctp, hctp, pat2, hpat2, mt2, hmt2, hsome⟩ := mem_scanCredLine.mp hmem
    have hs := credHit_some_spec hsome
    by_cases hctx : is_safe_context E line fp = true
    · right
      have hcond := hs.2.2.2.2.2 hctx
      simpa using hcond
    · left
      revert hctx
      cases is_safe_context E line fp <;> simp
  · intro hc
    rw [mem_scanCredLine]
    refine ⟨hbl, (ct, pats), hct, pat, hpat, mt, hmt, ?_⟩
    unfold credHit
    rw [hns]
    simp only [Bool.false_eq_true, if_false]
    by_cases hctx : is_safe_context E line fp = true
    · rw [hctx]
      simp only [if_true]
      rcases hc with hc | hc | hc
      · rw [hctx] at hc
        cases hc
      · have hbig :
            (decide ((extract_credential_value E mt).length > 30) ||
              is_base64_encoded (extract_credential_value E mt)) = true := by
          rw [decide_eq_true hc]
          rfl
        rw [hbig]
        rfl
      · have hbig :
            (decide ((extract_credential_value E mt).length > 30) ||
              is_base64_encoded (extract_credential_value E mt)) = true := by
          rw [hc, Bool.or_true]
        rw [hbig]
        rfl
    · have hctx2 : is_safe_context E line fp = false := by
        revert hctx; cases is_safe_context E line fp <;> simp
      rw [hctx2]
      rfl

/-- Witness for C6: a concrete password line outside any safe context is
reported. -/
theorem claim6_safe_context_reporting_witness :
    ((⟨1, pyStrip credLine0, "password",
        extract_credential_value oneHitEngine credLine0⟩ : CredFinding) ∈
      scanCredLine oneHitEngine "a.py" 1 credLine0) :=
  (claim6_safe_context_reporting oneHitEngine "a.py" 1 credLine0 "password"
      "password\\s*[:=]\\s*[\x22\x27][^\x22\x27]\x7b3,\x7d[\x22\x27]" credLine0
      ["password\\s*[:=]\\s*[\x22\x27][^\x22\x27]\x7b3,\x7d[\x22\x27]",
       "pwd\\s*[:=]\\s*[\x22\x27][^\x22\x27]\x7b3,\x7d[\x22\x27]",
       "passwd\\s*[:=]\\s*[\x22\x27][^\x22\x27]\x7b3,\x7d[\x22\x27]",
       "secret\\s*[:=]\\s*[\x22\x27][^\x22\x27]\x7b8,\x7d[\x22\x27]"]
      (by decide) (by decide) (by decide) (by decide) (by decide)).mpr
    (Or.inl (by decide))

/-- C7: has_license_header is true exactly when some pattern of the
LICENSE_PATTERNS table is found in the head content, which consists of the
first twenty lines of the file, so content from line twenty-one onward
never affects its result. -/
theorem claim7_license_header_first_twenty_lines (E : ReEngine) (fs1 fs2 : FS)
    (p c1 c2 : String) :
    ((has_license_header E fs1 p).1 =
        LICENSE_PATTERNS.any
          (fun lp => lp.2.any (fun pat => E.rsearch pat (read_file_head fs1 p)))) ∧
      (fs1 p = some c1 → fs2 p = some c2 →
        (pyFileLines c1).take 20 = (pyFileLines c2).take 20 →
        has_license_header E fs1 p = has_license_header E fs2 p) := by
  constructor
  · unfold has_license_header
    exact filterMapIfLen
      (fun lp => lp.2.any (fun pat => E.rsearch pat (read_file_head fs1 p)))
      (fun lp => lp.1) LICENSE_PATTERNS
  · intro hf1 hf2 htake
    unfold has_license_header read_file_head
    rw [hf1, hf2]
    dsimp only
    rw [htake]

/-- Witness for C7: two twenty-one-line contents differing only in the
twenty-first line yield the same header verdict. -/
theorem claim7_license_header_witness :
    (pyFileLines licC1).take 20 = (pyFileLines licC2).take 20 ∧
      has_license_header substrEngine licFS1 "h.py" =
        has_license_header substrEngine licFS2 "h.py" :=
  ⟨by decide,
   (claim7_license_header_first_twenty_lines substrEngine licFS1 licFS2 "h.py"
      licC1 licC2).2 rfl rfl (by decide)⟩

/-- C8: every scanner is stateless across files and deterministic.  For
the five scanners reporting per-file finding lists, any two report
entries for the same path — in the same run, across repeated runs, or
with the other input files added, removed or reordered — carry the same
finding list; the license checker's report stream is the concatenation of
a fixed per-file report function over the input files, and the XML
checker's report list is the map of a fixed per-file report function. -/
theorem claim8_findings_depend_only_on_file (env : YamlEnv) (E : ReEngine)
    (fs : FS) (largs : LicArgs) (vargs : VerboseArgs) (aargs dargs : SevArgs)
    (files1 files2 : List String) (p : String) :
    (∀ f1 f2 : List CredFinding, (p, f1) ∈ runCreds E fs files1 →
        (p, f2) ∈ runCreds E fs files2 → f1 = f2) ∧
      (∀ f1 f2 : List UrlFinding, (p, f1) ∈ runUrls E fs files1 →
        (p, f2) ∈ runUrls E fs files2 → f1 = f2) ∧
      (∀ f1 f2 : List ScanIssue, (p, f1) ∈ runVerbose E fs vargs files1 →
        (p, f2) ∈ runVerbose E fs vargs files2 → f1 = f2) ∧
      (∀ f1 f2 : List ScanIssue, (p, f1) ∈ runAnsible env E fs aargs files1 →
        (p, f2) ∈ runAnsible env E fs aargs files2 → f1 = f2) ∧
      (∀ f1 f2 : List ScanIssue, (p, f1) ∈ runDotnet E fs dargs files1 →
        (p, f2) ∈ runDotnet E fs dargs files2 → f1 = f2) ∧
      ((mainLicense E fs largs files1).2 = flatMapL (licFileReports E fs largs) files1) ∧
      (∀ res, mainXml fs files1 = Except.ok res →
        res.2 = files1.map (xmlFileReport fs)) := by
  refine ⟨?_, ?_, ?_, ?_, ?_, ?_, ?_⟩
  · intro f1 f2 h1 h2
    exact run_map_det (fun q => (find_hardcoded_credentials E fs q).1)
      files1 files2 p f1 f2 h1 h2
  · intro f1 f2 h1 h2
    exact run_map_det (fun q => (find_hardcoded_urls E fs q).1)
      files1 files2 p f1 f2 h1 h2
  · intro f1 f2 h1 h2
    exact run_map_det (fun q => verboseFileIssues E fs vargs q)
      files1 files2 p f1 f2 h1 h2
  · intro f1 f2 h1 h2
    exact run_map_det (fun q => ansibleFileIssues env E fs aargs q)
      files1 files2 p f1 f2 h1 h2
  · intro f1 f2 h1 h2
    exact run_map_det (fun q => dotnetFileIssues E fs dargs q)
      files1 files2 p f1 f2 h1 h2
  · unfold mainLicense
    rw [mainLicense_reports]
    simp
  · intro res hres
    unfold mainXml at hres
    rw [mainXml_eq_pure] at hres
    have hres2 : files1.foldl (xmlStepPure fs) (0, []) = res := by injection hres
    rw [← hres2, xmlFold_reports_eq]
    simp

/-- Witness for C8: the same file in two different runs of the credential
scanner yields the same findings. -/
theorem claim8_findings_depend_only_on_file_witness :
    ("a", ([] : List CredFinding)) ∈ runCreds noopEngine fsEmptyContent ["a"] ∧
      ([] : List CredFinding) = [] :=
  ⟨by decide,
   (claim8_findings_depend_only_on_file ansEnv noopEngine fsEmptyContent
      ⟨false, none⟩ ⟨none, false, false⟩ ⟨none, false⟩ ⟨none, false⟩
      ["a"] ["b", "a"] "a").1 [] [] (by decide) (by decide)⟩

/-- C9: validate_xml_file is total — every outcome of the parse, missing
file included, is turned into a returned pair by its handler chain — so
the FileNotFoundError handler in main never fires, and a missing file is
reported through the generic Unexpected error branch with exit code one. -/
theorem claim9_validate_xml_total (fs : FS) (files : List String) (p : String) :
    (validate_xml_file fs p).isOk = true ∧
      (∀ res, mainXml fs files = Except.ok res →
        res.2.all (fun r => !(isNotFoundReport r)) = true) ∧
      (fs p = none →
        validate_xml_file fs p =
            Except.ok (false,
              some ("Unexpected error: " ++ pyExcMsg (PyExc.fileNotFound p))) ∧
          (p ∈ files → ∀ res, mainXml fs files = Except.ok res → res.1 = 1)) := by
  refine ⟨validate_xml_file_isOk fs p, ?_, ?_⟩
  · intro res hres
    unfold mainXml at hres
    rw [mainXml_eq_pure] at hres
    have hres2 : files.foldl (xmlStepPure fs) (0, []) = res := by
      injection hres
    rw [← hres2]
    exact xmlFold_reports fs files (0, []) rfl
  · intro hp
    refine ⟨validate_xml_missing fs p hp, ?_⟩
    intro hmem res hres
    unfold mainXml at hres
    rw [mainXml_eq_pure] at hres
    have hres2 : files.foldl (xmlStepPure fs) (0, []) = res := by
      injection hres
    rw [← hres2, xmlFold_fst]
    have hbad : badXml fs p = true := by
      unfold badXml
      rw [validate_xml_missing fs p hp]
    have hany : files.any (badXml fs) = true :=
      List.any_eq_true.mpr ⟨p, hmem, hbad⟩
    rw [hany]
    rfl

/-- Witness for C9: a missing file is reported through the generic branch
and forces exit code one. -/
theorem claim9_validate_xml_total_witness :
    fsNone "f.xml" = none ∧
      validate_xml_file fsNone "f.xml" =
        Except.ok (false,
          some ("Unexpected error: " ++ pyExcMsg (PyExc.fileNotFound "f.xml"))) ∧
      (1, [XReport.invalidRep "f.xml" "Unexpected error: f.xml"]).1 = 1 := by
  refine ⟨rfl, ?_, ?_⟩
  · exact ((claim9_validate_xml_total fsNone ["f.xml"] "f.xml").2.2 rfl).1
  · exact ((claim9_validate_xml_total fsNone ["f.xml"] "f.xml").2.2 rfl).2
      (by decide) (1, [XReport.invalidRep "f.xml" "Unexpected error: f.xml"]) rfl

/-- C10: both scanners return their findings in non-decreasing line-number
order, with every recorded line number between one and the number of lines
the scanner enumerates for the file. -/
theorem claim10_findings_sorted_bounded (E : ReEngine) (fs : FS) (p : String) :
    (List.Pairwise (fun a b => a.lineNum ≤ b.lineNum)
        (find_hardcoded_credentials E fs p).1 ∧
      ((find_hardcoded_credentials E fs p).1.all fun f =>
        decide (1 ≤ f.lineNum) && decide (f.lineNum ≤ credLineCount fs p)) = true) ∧
      (List.Pairwise (fun a b => a.lineNum ≤ b.lineNum)
          (find_hardcoded_urls E fs p).1 ∧
        ((find_hardcoded_urls E fs p).1.all fun f =>
          decide (1 ≤ f.lineNum) && decide (f.lineNum ≤ urlLineCount fs p)) = true) := by
  constructor
  · unfold find_hardcoded_credentials credLineCount
    by_cases hskip : (SKIP_EXTENSIONS.any fun ext => strEndsWith p ext) = true
    · rw [hskip]
      simp
    · have hs2 : (SKIP_EXTENSIONS.any fun ext => strEndsWith p ext) = false := by
        revert hskip; cases SKIP_EXTENSIONS.any fun ext => strEndsWith p ext <;> simp
      rw [hs2]
      simp only [Bool.false_eq_true, if_false]
      cases hfs : fs p with
      | none => simp
      | some c =>
        dsimp only
        have h := pairwise_flatMap_enum (fun n l => scanCredLine E p n l)
          (fun f => f.lineNum) (fun n l x hx => mem_scanCredLine_lineNum hx)
          (pySplit c '\n') 1
        refine ⟨h.1, ?_⟩
        rw [List.all_eq_true]
        intro f hf
        have hb := h.2 f hf
        have hb1 : 1 ≤ f.lineNum := hb.1
        have hb2 : f.lineNum ≤ (pySplit c '\n').length := by omega
        simp [hb1, hb2]
  · unfold find_hardcoded_urls urlLineCount
    by_cases hskip : (SKIP_EXTENSIONS.any fun ext => strEndsWith p ext) = true
    · rw [hskip]
      simp
    · have hs2 : (SKIP_EXTENSIONS.any fun ext => strEndsWith p ext) = false := by
        revert hskip; cases SKIP_EXTENSIONS.any fun ext => strEndsWith p ext <;> simp
      rw [hs2]
      simp only [Bool.false_eq_true, if_false]
      cases hfs : fs p with
      | none => simp
      | some c =>
        dsimp only
        have h := pairwise_flatMap_enum (fun n l => scanUrlLine E n l)
          (fun f => f.lineNum) (fun n l x hx => mem_scanUrlLine_lineNum hx)
          (pyFileLines c) 1
        refine ⟨h.1, ?_⟩
        rw [List.all_eq_true]
        intro f hf
        have hb := h.2 f hf
        have hb1 : 1 ≤ f.lineNum := hb.1
        have hb2 : f.lineNum ≤ (pyFileLines c).length := by omega
        simp [hb1, hb2]

end PreCommit
